import Mathlib

/-!
Verification of the OpenProject MCP gateway (src/mcp_agent.py).

The development shallowly embeds the request executor `make_request`, the
operation shapers (project / work-package creation and update, comments,
watchers, activities, custom actions), the global work-package listing, and
the local endpoint-catalog lookup (`search_endpoint` / `query_api`), together
with the parts of the Python runtime the code leans on: keyword-argument
binding (an unexpected keyword raises `TypeError` before the callee body
runs), local-variable scoping (a read of a function-local name before its
assignment raises `UnboundLocalError`), `json.dumps` with its default
`ensure_ascii` escaping, and SQLite `LIKE` matching (ASCII case-insensitive,
with `%` and `_` wildcards).
-/

set_option maxRecDepth 4096

namespace McpAgent


/-- A JSON value, the duck-typed payloads the gateway moves around.
Python dicts preserve insertion order, so objects are association lists. -/
inductive JVal where
  | null
  | bool (b : Bool)
  | num (n : Int)
  | str (s : String)
  | arr (xs : List JVal)
  | obj (fields : List (String × JVal))

/-- A Python dict with string keys, in insertion order. -/
abbrev Dict := List (String × JVal)

/-- Whether a dict has an entry with key `k`. -/
def dictHasKey (d : Dict) (k : String) : Bool :=
  d.any (fun p => p.1 == k)

/-- Value at key `k` (first occurrence), as Python dict lookup. -/
def dictGet (d : Dict) (k : String) : Option JVal :=
  (d.find? (fun p => p.1 == k)).map (·.2)

/-- Python `d[k] = v`: overwrite in place if the key exists, else append. -/
def dictSet (d : Dict) (k : String) (v : JVal) : Dict :=
  if d.any (fun p => p.1 == k) then
    d.map (fun p => if p.1 == k then (k, v) else p)
  else
    d ++ [(k, v)]

/-- `if x is not None: d[key] = f(x)` -/
def addIfSome {α : Type} (d : Dict) (k : String) (v : Option α) (f : α → JVal) : Dict :=
  match v with
  | some x => d ++ [(k, f x)]
  | none => d

/-- `if x:` for an optional string: both `None` and `""` are falsy. -/
def addIfTruthyStr (d : Dict) (k : String) (v : Option String) (f : String → JVal) : Dict :=
  match v with
  | some x => if x = "" then d else d ++ [(k, f x)]
  | none => d

/-- `if x:` for an optional int: both `None` and `0` are falsy. -/
def addIfTruthyInt (d : Dict) (k : String) (v : Option Int) (f : Int → JVal) : Dict :=
  match v with
  | some x => if x = 0 then d else d ++ [(k, f x)]
  | none => d

/-- Truthiness of an optional dict (`None` and `{}` are falsy). -/
def optDictTruthy (d : Option Dict) : Bool :=
  match d with
  | some l => !l.isEmpty
  | none => false

/-- Python `a or b` on optional dicts. -/
def pyOr (a b : Option Dict) : Option Dict :=
  if optDictTruthy a then a else b

@[simp] theorem dictHasKey_nil (k : String) : dictHasKey [] k = false := rfl

@[simp] theorem dictHasKey_append (a b : Dict) (k : String) :
    dictHasKey (a ++ b) k = (dictHasKey a k || dictHasKey b k) := by
  simp [dictHasKey, List.any_append]

@[simp] theorem dictHasKey_cons (p : String × JVal) (d : Dict) (k : String) :
    dictHasKey (p :: d) k = (p.1 == k || dictHasKey d k) := by
  simp [dictHasKey]

@[simp] theorem addIfSome_none {α : Type} (d : Dict) (k : String) (f : α → JVal) :
    addIfSome d k none f = d := rfl

@[simp] theorem addIfSome_some {α : Type} (d : Dict) (k : String) (x : α) (f : α → JVal) :
    addIfSome d k (some x) f = d ++ [(k, f x)] := rfl

@[simp] theorem addIfTruthyStr_none (d : Dict) (k : String) (f : String → JVal) :
    addIfTruthyStr d k none f = d := rfl

@[simp] theorem addIfTruthyInt_none (d : Dict) (k : String) (f : Int → JVal) :
    addIfTruthyInt d k none f = d := rfl

/-! ## json.dumps

`json.dumps` with its defaults: separators `", "` and `": "`, and
`ensure_ascii=True`, so `"` and `\` get a backslash escape, the control
characters with short names use them, every other character outside
`0x20`-`0x7e` becomes `\uXXXX` (a surrogate pair beyond the BMP, lowercase
hex digits). -/

/-- Lowercase hex digit for `n < 16`. -/
def hexDigitChar (n : Nat) : Char :=
  if n < 10 then Char.ofNat (48 + n) else Char.ofNat (87 + n)

/-- Four lowercase hex digits of `n < 0x10000`. -/
def hex4 (n : Nat) : List Char :=
  [hexDigitChar (n / 4096 % 16), hexDigitChar (n / 256 % 16),
   hexDigitChar (n / 16 % 16), hexDigitChar (n % 16)]

/-- The escape of one character under `json.dumps(ensure_ascii=True)`. -/
def escChar (c : Char) : List Char :=
  if c = '"' then ['\\', '"']
  else if c = '\\' then ['\\', '\\']
  else if c = '\n' then ['\\', 'n']
  else if c = '\r' then ['\\', 'r']
  else if c = '\t' then ['\\', 't']
  else if c.toNat = 8 then ['\\', 'b']
  else if c.toNat = 12 then ['\\', 'f']
  else if c.toNat < 32 ∨ c.toNat > 126 then
    if c.toNat < 65536 then
      '\\' :: 'u' :: hex4 c.toNat
    else
      '\\' :: 'u' :: hex4 (55296 + (c.toNat - 65536) / 1024) ++
        '\\' :: 'u' :: hex4 (56320 + (c.toNat - 65536) % 1024)
  else [c]

/-- Escape every character of a string body. -/
def escChars : List Char → List Char
  | [] => []
  | c :: cs => escChar c ++ escChars cs

/-- The characters of a serialized JSON string (quotes included). -/
def dumpsStrChars (s : String) : List Char :=
  '"' :: escChars s.data ++ ['"']

/-- Left brace as a character. -/
def lbraceC : Char := Char.ofNat 123

/-- Right brace as a character. -/
def rbraceC : Char := Char.ofNat 125

mutual

/-- Characters of `json.dumps` on a JSON value (default separators). -/
def dumpsJChars : JVal → List Char
  | .null => "null".data
  | .bool true => "true".data
  | .bool false => "false".data
  | .num n => (toString n).data
  | .str s => dumpsStrChars s
  | .arr xs => '[' :: dumpsArrChars xs ++ [']']
  | .obj fs => lbraceC :: dumpsObjChars fs ++ [rbraceC]

/-- Array elements joined by `", "`. -/
def dumpsArrChars : List JVal → List Char
  | [] => []
  | [x] => dumpsJChars x
  | x :: y :: xs => dumpsJChars x ++ ',' :: ' ' :: dumpsArrChars (y :: xs)

/-- Object entries `"key": value` joined by `", "`. -/
def dumpsObjChars : List (String × JVal) → List Char
  | [] => []
  | [(k, v)] => dumpsStrChars k ++ ':' :: ' ' :: dumpsJChars v
  | (k, v) :: f :: fs =>
      dumpsStrChars k ++ ':' :: ' ' :: dumpsJChars v ++ ',' :: ' ' :: dumpsObjChars (f :: fs)

end

/-- `json.dumps` as a string. -/
def dumpsJ (v : JVal) : String := String.mk (dumpsJChars v)



/-- ASCII lowercasing (the case folding of `str.lower` on ASCII text, and of
SQLite `LIKE` by default). -/
def asciiLower (c : Char) : Char :=
  if 65 ≤ c.toNat ∧ c.toNat ≤ 90 then Char.ofNat (c.toNat + 32) else c

/-- Python `s.lower()` for the ASCII strings handled here. -/
def pyLower (s : String) : String :=
  String.mk (s.data.map asciiLower)

/-! ## The request executor `make_request` (src/mcp_agent.py lines 18-68) -/

/-- The outcome of the one HTTP exchange a `make_request` invocation attempts,
supplied by the environment. For a response, `jsonBody` is the outcome of
`response.json()`: the parsed value when the body text is valid JSON, or the
message of the decode error it raises otherwise (an empty body, as in a 204
response, is not valid JSON, so there it is always an error). -/
inductive Upstream where
  | response (status : Nat) (text : String) (jsonBody : Except String JVal)
  | transportError (msg : String)

/-- The `request_args` dict built at lines 42-51. `params` and `jsonBody`
are `none` when the corresponding key is absent from `request_args`; the
inner option is the Python value stored under the key (which can be `None`). -/
structure RequestArgs where
  headers : Dict
  params : Option (Option Dict) := none
  jsonBody : Option (Option Dict) := none

/-- `USER_AGENT` (line 15). -/
def USER_AGENT : String :=
  "Mozilla/5.0 (Windows NT 10.0; Win64; x64) AppleWebKit/537.36 (KHTML, like Gecko) Chrome/91.0.4472.124 Safari/537.36"

/-- The methods that get their `data` as query parameters (line 44). -/
def noBodyMethods : List String := ["get", "delete", "head", "options"]

/-- Lines 37-51: headers defaulted and stamped with the user agent, then the
`request_args` dict: for GET/DELETE/HEAD/OPTIONS `params = data or params`
and no `json` key; for every other method `json = data`, plus `params` when
`params` is truthy. -/
def buildRequestArgs (method : String) (headers : Option Dict)
    (data params : Option Dict) : RequestArgs :=
  let hdrs := dictSet ((pyOr headers (some [])).getD []) "User-Agent" (.str USER_AGENT)
  if pyLower method ∈ noBodyMethods then
    { headers := hdrs, params := some (pyOr data params) }
  else
    { headers := hdrs, jsonBody := some data,
      params := if optDictTruthy params then some params else none }

/-- The verb attributes of `httpx.AsyncClient` that issue one request when
called as `getattr(client, method_lower)(url, **request_args)`. -/
def clientVerbs : List String := ["get", "post", "put", "patch", "delete", "head", "options"]

/-- The one outbound request an invocation issues. -/
structure SentRequest where
  url : String
  methodLower : String
  headers : Dict
  params : Option (Option Dict)
  jsonBody : Option (Option Dict)

/-- The dict `make_request` returns for an `httpx.HTTPStatusError` (lines 58-63). -/
def httpErrorRecord (status : Nat) (text : String) : JVal :=
  .obj [("error", .str "HTTP error"), ("status", .num status), ("details", .str text)]

/-- The dict `make_request` returns from the generic `except` (lines 64-68). -/
def requestFailedRecord (msg : String) : JVal :=
  .obj [("error", .str "Request failed"), ("details", .str msg)]

/-- `make_request` (lines 18-68): build `request_args`, dispatch the verb,
`raise_for_status` (which raises for every non-2xx status), then
`response.json()`. The first component is the request actually handed to the
transport (`none` when the method is not a client verb, where `getattr` or
the mis-called attribute fails and the generic `except` answers). -/
def make_request (url method : String) (headers : Option Dict)
    (data params : Option Dict) (upstream : Upstream) : Option SentRequest × JVal :=
  let ra := buildRequestArgs method headers data params
  let ml := pyLower method
  if ml ∈ clientVerbs then
    let req : SentRequest :=
      { url := url, methodLower := ml, headers := ra.headers,
        params := ra.params, jsonBody := ra.jsonBody }
    match upstream with
    | .response status text jsonBody =>
      if 200 ≤ status ∧ status < 300 then
        match jsonBody with
        | .ok j => (some req, j)
        | .error msg => (some req, requestFailedRecord msg)
      else
        (some req, httpErrorRecord status text)
    | .transportError msg => (some req, requestFailedRecord msg)
  else
    (none, requestFailedRecord ("bad client attribute " ++ ml))

/-! ## Python call and scoping semantics used by the operations -/

/-- A Python exception escaping an operation. -/
inductive PyExc where
  | typeError (msg : String)
  | unboundLocal (name : String)
deriving Repr, DecidableEq

/-- `str(e)` for the exceptions the operations stringify (the exact CPython
wording is abbreviated; only its presence in the returned text matters). -/
def pyStr : PyExc → String
  | .typeError m => m
  | .unboundLocal nm => "local variable " ++ nm ++ " referenced before assignment"

/-- Message of the `TypeError` raised when a call passes a keyword the callee
signature does not declare. -/
def unexpectedKwargMsg (fn kw : String) : String :=
  fn ++ "() got an unexpected keyword argument " ++ kw

/-- Reading a name that is local to the current function (because the function
assigns it somewhere) before that assignment has run raises
`UnboundLocalError`; `v` is the value bound so far (`none` = not yet bound). -/
def pyLocalRead (v : Option String) (nm : String) : Except PyExc String :=
  match v with
  | some s => .ok s
  | none => .error (.unboundLocal nm)

/-- A keyword call of `make_request`. The signature at line 18 declares
exactly `url`, `method`, `headers`, `data`, `params`; `extraKw` carries any
further keywords the call site wrote (such as `json=payload` or
`files=files`), each with the value the caller supplied. Python binds
keywords before the callee body runs, so a non-empty `extraKw` raises
`TypeError` and no request is attempted. -/
structure MRCall where
  url : String
  method : String
  headers : Option Dict := none
  data : Option Dict := none
  params : Option Dict := none
  extraKw : List (String × JVal) := []

/-- Perform a keyword call of `make_request`, with Python binding semantics. -/
def callMakeRequest (c : MRCall) (upstream : Upstream) :
    Except PyExc (Option SentRequest × JVal) :=
  match c.extraKw with
  | (kw, _) :: _ => .error (.typeError (unexpectedKwargMsg "make_request" kw))
  | [] => .ok (make_request c.url c.method c.headers c.data c.params upstream)

/-- Module-level configuration (`from config import host, xcred as api_key`;
config.py is not part of the sources, its two values are parameters here). -/
structure GatewayConfig where
  host : String
  apiKey : String

/-- What one operation invocation did: `result` is the value it returned
(`Except.error` = it raised to its caller), `sent` the network requests it
actually issued. -/
structure OpOutcome where
  result : Except PyExc String
  sent : List SentRequest

/-- The standard JSON headers most operations build. -/
def jsonHeaders (apiKey : String) : Dict :=
  [("Authorization", .str ("Basic " ++ apiKey)),
   ("Content-Type", .str "application/json")]



/-! ## Operation shapers (the `@mcp.tool()` functions) -/

/-- The payload `create_project` builds (lines 127-145): `identifier` is put
in unconditionally (Python `None` becomes JSON null), and `description` /
`status_explanation` are guarded by truthiness (`if description:`), not by
`is not None`. -/
def create_project_payload (name : String) (description identifier : Option String)
    (public : Bool) (status_explanation : Option String) : Dict :=
  let payload : Dict :=
    [("name", .str name),
     ("identifier", match identifier with | some s => .str s | none => .null),
     ("public", .bool public),
     ("active", .bool true),
     ("_type", .str "Project")]
  let payload := addIfTruthyStr payload "description"
    description (fun d => .obj [("format", .str "markdown"), ("raw", .str d)])
  addIfTruthyStr payload "statusExplanation"
    status_explanation (fun d => .obj [("format", .str "markdown"), ("raw", .str d)])

/-- `create_project` (lines 100-156): builds the payload, then calls
`make_request(url=..., method="POST", headers=..., json=payload)`. The
keyword `json` is not in `make_request`'s signature, so the call raises
`TypeError` inside the `try` and the `except` returns the error string. -/
def create_project (cfg : GatewayConfig) (name : String)
    (description identifier : Option String) (public : Bool)
    (status_explanation : Option String) (upstream : Upstream) : OpOutcome :=
  let api_url := "https://" ++ cfg.host ++ "/api/v3/projects"
  let headers := jsonHeaders cfg.apiKey
  let payload := create_project_payload name description identifier public status_explanation
  match callMakeRequest
      { url := api_url, method := "POST", headers := some headers,
        extraKw := [("json", .obj payload)] } upstream with
  | .ok (req, resp) => { result := .ok (dumpsJ resp), sent := req.toList }
  | .error e => { result := .ok ("Error creating project: " ++ pyStr e), sent := [] }

/-- The payload `update_project` builds (lines 291-310): every field is
guarded by `is not None`, so `False` survives and only omitted fields are
left out. -/
def update_project_payload (name identifier : Option String)
    (public active : Option Bool) (description status_explanation : Option String) : Dict :=
  let payload : Dict := []
  let payload := addIfSome payload "name" name .str
  let payload := addIfSome payload "identifier" identifier .str
  let payload := addIfSome payload "public" public .bool
  let payload := addIfSome payload "active" active .bool
  let payload := addIfSome payload "description" description
    (fun d => .obj [("raw", .str d)])
  addIfSome payload "statusExplanation" status_explanation
    (fun d => .obj [("raw", .str d)])

/-- `update_project` (lines 253-327): early return when no field was given,
otherwise a PATCH through `make_request(..., json=payload)` whose unexpected
keyword raises `TypeError` inside the `try`. -/
def update_project (cfg : GatewayConfig) (project_id : Int)
    (name description identifier : Option String) (public active : Option Bool)
    (status_explanation : Option String) (upstream : Upstream) : OpOutcome :=
  let api_url := "https://" ++ cfg.host ++ "/api/v3/projects/" ++ toString project_id
  let headers := jsonHeaders cfg.apiKey
  let payload := update_project_payload name identifier public active description status_explanation
  if payload.isEmpty then
    { result := .ok "No update fields provided. Please specify at least one field to change.",
      sent := [] }
  else
    match callMakeRequest
        { url := api_url, method := "PATCH", headers := some headers,
          extraKw := [("json", .obj payload)] } upstream with
    | .ok (req, resp) => { result := .ok (dumpsJ resp), sent := req.toList }
    | .error e =>
      { result := .ok ("Error updating project " ++ toString project_id ++ ": " ++ pyStr e),
        sent := [] }

/-- The `_links` object of `create_work_package` (lines 605-617): every link
is guarded by bare truthiness (`if type_id:`), so an explicit `0` is dropped. -/
def create_work_package_links (type_id priority_id status_id assignee_id : Option Int) : Dict :=
  let links : Dict := []
  let links := addIfTruthyInt links "type" type_id
    (fun i => .obj [("href", .str ("/api/v3/types/" ++ toString i))])
  let links := addIfTruthyInt links "priority" priority_id
    (fun i => .obj [("href", .str ("/api/v3/priorities/" ++ toString i))])
  let links := addIfTruthyInt links "status" status_id
    (fun i => .obj [("href", .str ("/api/v3/statuses/" ++ toString i))])
  addIfTruthyInt links "assignee" assignee_id
    (fun i => .obj [("href", .str ("/api/v3/users/" ++ toString i))])

/-- The payload `create_work_package` builds (lines 586-621): all optional
fields guarded by truthiness, `_links` only when non-empty. -/
def create_work_package_payload (subject : String) (description : Option String)
    (type_id priority_id status_id assignee_id : Option Int)
    (start_date due_date estimated_time : Option String) : Dict :=
  let payload : Dict := [("subject", .str subject)]
  let payload := addIfTruthyStr payload "description" description
    (fun d => .obj [("raw", .str d)])
  let payload := addIfTruthyStr payload "startDate" start_date .str
  let payload := addIfTruthyStr payload "dueDate" due_date .str
  let payload := addIfTruthyStr payload "estimatedTime" estimated_time .str
  let links := create_work_package_links type_id priority_id status_id assignee_id
  if links.isEmpty then payload else payload ++ [("_links", .obj links)]

/-- `create_work_package` (lines 536-635): POST with `params={"notify": ...}`
and the unexpected `json=payload` keyword. -/
def create_work_package (cfg : GatewayConfig) (project_id : Int) (subject : String)
    (description : Option String) (type_id priority_id status_id assignee_id : Option Int)
    (start_date due_date estimated_time : Option String) (notify : Bool)
    (upstream : Upstream) : OpOutcome :=
  let api_url := "https://" ++ cfg.host ++ "/api/v3/projects/" ++ toString project_id
      ++ "/work_packages"
  let headers := jsonHeaders cfg.apiKey
  let params : Dict := [("notify", .str (if notify then "true" else "false"))]
  let payload := create_work_package_payload subject description
    type_id priority_id status_id assignee_id start_date due_date estimated_time
  match callMakeRequest
      { url := api_url, method := "POST", headers := some headers, params := some params,
        extraKw := [("json", .obj payload)] } upstream with
  | .ok (req, resp) => { result := .ok (dumpsJ resp), sent := req.toList }
  | .error e =>
    { result := .ok ("Error creating work package in project " ++ toString project_id
        ++ ": " ++ pyStr e),
      sent := [] }

/-- The payload `update_work_package` builds (lines 802-843): `lockVersion`
first and unconditionally, every optional field guarded by `is not None`. -/
def update_work_package_payload (lock_version : Int) (subject description : Option String)
    (percentage_done type_id priority_id status_id assignee_id : Option Int)
    (start_date due_date estimated_time : Option String) : Dict :=
  let payload : Dict := [("lockVersion", .num lock_version)]
  let payload := addIfSome payload "subject" subject .str
  let payload := addIfSome payload "percentageDone" percentage_done .num
  let payload := addIfSome payload "startDate" start_date .str
  let payload := addIfSome payload "dueDate" due_date .str
  let payload := addIfSome payload "estimatedTime" estimated_time .str
  let payload := addIfSome payload "description" description
    (fun d => .obj [("raw", .str d)])
  let links : Dict := []
  let links := addIfSome links "type" type_id
    (fun i => .obj [("href", .str ("/api/v3/types/" ++ toString i))])
  let links := addIfSome links "priority" priority_id
    (fun i => .obj [("href", .str ("/api/v3/priorities/" ++ toString i))])
  let links := addIfSome links "status" status_id
    (fun i => .obj [("href", .str ("/api/v3/statuses/" ++ toString i))])
  let links := addIfSome links "assignee" assignee_id
    (fun i => .obj [("href", .str ("/api/v3/users/" ++ toString i))])
  if links.isEmpty then payload else payload ++ [("_links", .obj links)]

/-- `update_work_package` (lines 747-857): PATCH with notify params and the
unexpected `json=payload` keyword. -/
def update_work_package (cfg : GatewayConfig) (work_package_id lock_version : Int)
    (subject description : Option String)
    (percentage_done type_id priority_id status_id assignee_id : Option Int)
    (start_date due_date estimated_time : Option String) (notify : Bool)
    (upstream : Upstream) : OpOutcome :=
  let api_url := "https://" ++ cfg.host ++ "/api/v3/work_packages/" ++ toString work_package_id
  let headers := jsonHeaders cfg.apiKey
  let params : Dict := [("notify", .str (if notify then "true" else "false"))]
  let payload := update_work_package_payload lock_version subject description
    percentage_done type_id priority_id status_id assignee_id start_date due_date estimated_time
  match callMakeRequest
      { url := api_url, method := "PATCH", headers := some headers, params := some params,
        extraKw := [("json", .obj payload)] } upstream with
  | .ok (req, resp) => { result := .ok (dumpsJ resp), sent := req.toList }
  | .error e =>
    { result := .ok ("Error updating work package " ++ toString work_package_id
        ++ ": " ++ pyStr e),
      sent := [] }

/-- The keyword-call boundary of `update_work_package`: `work_package_id` and
`lock_version` have no default in the signature (lines 748-761), so an
invocation that omits either raises `TypeError` at binding, before the body
runs and before any request is built or sent. -/
def call_update_work_package (cfg : GatewayConfig)
    (work_package_id lock_version : Option Int) (subject description : Option String)
    (percentage_done type_id priority_id status_id assignee_id : Option Int)
    (start_date due_date estimated_time : Option String) (notify : Bool)
    (upstream : Upstream) : OpOutcome :=
  match work_package_id, lock_version with
  | some wid, some lv =>
    update_work_package cfg wid lv subject description
      percentage_done type_id priority_id status_id assignee_id
      start_date due_date estimated_time notify upstream
  | none, _ =>
    { result := .error (.typeError "update_work_package() missing required argument work_package_id"),
      sent := [] }
  | some _, none =>
    { result := .error (.typeError "update_work_package() missing required argument lock_version"),
      sent := [] }

/-- `comment_work_package` (lines 859-915): POST of a `Comment` payload via
the unexpected `json=payload` keyword. -/
def comment_work_package (cfg : GatewayConfig) (work_package_id : Int)
    (comment_text : String) (notify : Bool) (upstream : Upstream) : OpOutcome :=
  let api_url := "https://" ++ cfg.host ++ "/api/v3/work_packages/"
      ++ toString work_package_id ++ "/activities"
  let headers := jsonHeaders cfg.apiKey
  let params : Dict := [("notify", .str (if notify then "true" else "false"))]
  let payload : Dict :=
    [("_type", .str "Comment"), ("comment", .obj [("raw", .str comment_text)])]
  match callMakeRequest
      { url := api_url, method := "POST", headers := some headers, params := some params,
        extraKw := [("json", .obj payload)] } upstream with
  | .ok (req, resp) => { result := .ok (dumpsJ resp), sent := req.toList }
  | .error e =>
    { result := .ok ("Error commenting on work package " ++ toString work_package_id
        ++ ": " ++ pyStr e),
      sent := [] }

/-- `add_work_package_watcher` (lines 1029-1077): POST of a user link via the
unexpected `json=payload` keyword. -/
def add_work_package_watcher (cfg : GatewayConfig) (work_package_id user_id : Int)
    (upstream : Upstream) : OpOutcome :=
  let api_url := "https://" ++ cfg.host ++ "/api/v3/work_packages/"
      ++ toString work_package_id ++ "/watchers"
  let headers := jsonHeaders cfg.apiKey
  let payload : Dict :=
    [("_links", .obj [("user", .obj
      [("href", .str ("/api/v3/users/" ++ toString user_id))])])]
  match callMakeRequest
      { url := api_url, method := "POST", headers := some headers,
        extraKw := [("json", .obj payload)] } upstream with
  | .ok (req, resp) => { result := .ok (dumpsJ resp), sent := req.toList }
  | .error e =>
    { result := .ok ("Error adding watcher to work package " ++ toString work_package_id
        ++ ": " ++ pyStr e),
      sent := [] }



/-- Environment variables, for the operations that call `os.getenv`. -/
def Env : Type := String → Option String

/-- Outcome of an operation whose `return` hands back a Python dict
(`list_projects` returns `make_request`'s dict without serializing it). -/
structure OpOutcomeJ where
  result : Except PyExc JVal
  sent : List SentRequest

/-- `run_api` (lines 70-98). The assignment `api_key = f"Basic {api_key}"`
makes `api_key` local to the function, so the read on its right-hand side
happens before any local binding and raises `UnboundLocalError`; there is no
`try` around it, so the operation raises to its caller. The continuation
after the read is the rest of the body, faithful but unreachable. -/
def run_api (query method : String) (upstream : Upstream) : OpOutcome :=
  let host := "pm.v.spaceagecu.org/api/v3"
  let api_url := "https://" ++ host ++ query
  match pyLocalRead none "api_key" with
  | .error e => { result := .error e, sent := [] }
  | .ok v =>
    let api_key := "Basic " ++ v
    let headers : Dict :=
      [("Authorization", .str api_key), ("Content-Type", .str "application/json"),
       ("Connection", .str "keep-alive")]
    let (req, resp) := make_request api_url method (some headers) none none upstream
    { result := .ok (dumpsJ resp), sent := req.toList }

/-- `list_projects` (lines 195-214): a plain GET whose dict result is
returned as-is, not serialized to a string and with no `try` of its own
(`make_request` itself never raises). -/
def list_projects (cfg : GatewayConfig) (upstream : Upstream) : OpOutcomeJ :=
  let api_url := "https://" ++ cfg.host ++ "/api/v3/projects"
  let headers := jsonHeaders cfg.apiKey
  let (req, resp) := make_request api_url "GET" (some headers) none none upstream
  { result := .ok resp, sent := req.toList }

/-- `view_activity` (lines 1120-1157). The configuration step rebinds
`api_key` from `os.getenv("OPENPROJECT_API_KEY", api_key)`; `api_key` is
local to the function because of that very assignment, so evaluating the
default-argument expression reads an unbound local and raises
`UnboundLocalError` before the `try` block is entered. -/
def view_activity (env : Env) (activity_id : Int) (upstream : Upstream) : OpOutcome :=
  let host := (env "OPENPROJECT_HOST").getD "pm.v.spaceagecu.org"
  match pyLocalRead none "api_key" with
  | .error e => { result := .error e, sent := [] }
  | .ok prior =>
    let api_key := (env "OPENPROJECT_API_KEY").getD prior
    let api_url := "https://" ++ host ++ "/api/v3/activities/" ++ toString activity_id
    let headers := jsonHeaders api_key
    let (req, resp) := make_request api_url "GET" (some headers) none none upstream
    { result := .ok (dumpsJ resp), sent := req.toList }

/-- `update_activity` (lines 1159-1205). Same configuration slip as
`view_activity`: the `os.getenv("OPENPROJECT_API_KEY", api_key)` default
reads the unbound local `api_key` and raises `UnboundLocalError` before the
`try`; the unreachable continuation would hit the unexpected `json=payload`
keyword of `make_request`. -/
def update_activity (env : Env) (activity_id : Int) (new_comment_text : String)
    (upstream : Upstream) : OpOutcome :=
  let host := (env "OPENPROJECT_HOST").getD "pm.v.spaceagecu.org"
  match pyLocalRead none "api_key" with
  | .error e => { result := .error e, sent := [] }
  | .ok prior =>
    let api_key := (env "OPENPROJECT_API_KEY").getD prior
    let api_url := "https://" ++ host ++ "/api/v3/activities/" ++ toString activity_id
    let headers := jsonHeaders api_key
    let payload : Dict := [("comment", .obj [("raw", .str new_comment_text)])]
    match callMakeRequest
        { url := api_url, method := "PATCH", headers := some headers,
          extraKw := [("json", .obj payload)] } upstream with
    | .ok (req, resp) => { result := .ok (dumpsJ resp), sent := req.toList }
    | .error e =>
      { result := .ok ("Error updating activity " ++ toString activity_id ++ ": " ++ pyStr e),
        sent := [] }

/-- `execute_custom_action` (lines 1522-1577). Same configuration slip: the
`os.getenv("OPENPROJECT_API_KEY", api_key)` default reads the unbound local
`api_key` and raises `UnboundLocalError` before the payload with its
`lockVersion` is ever built. -/
def execute_custom_action (env : Env) (custom_action_id work_package_id lock_version : Int)
    (upstream : Upstream) : OpOutcome :=
  let host := (env "OPENPROJECT_HOST").getD "pm.v.spaceagecu.org"
  match pyLocalRead none "api_key" with
  | .error e => { result := .error e, sent := [] }
  | .ok prior =>
    let api_key := (env "OPENPROJECT_API_KEY").getD prior
    let api_url := "https://" ++ host ++ "/api/v3/custom_actions/"
        ++ toString custom_action_id ++ "/execute"
    let headers := jsonHeaders api_key
    let payload : Dict :=
      [("_links", .obj [("workPackage", .obj
        [("href", .str ("/api/v3/work_packages/" ++ toString work_package_id))])]),
       ("lockVersion", .num lock_version)]
    match callMakeRequest
        { url := api_url, method := "POST", headers := some headers,
          extraKw := [("json", .obj payload)] } upstream with
    | .ok (req, resp) => { result := .ok (dumpsJ resp), sent := req.toList }
    | .error e =>
      { result := .ok ("Error executing custom action " ++ toString custom_action_id
          ++ " on work package " ++ toString work_package_id ++ ": " ++ pyStr e),
        sent := [] }

/-- The keyword-call boundary of `execute_custom_action`: all three of its
parameters are required, so omitting `lock_version` raises `TypeError` at
binding, before the body runs. -/
def call_execute_custom_action (env : Env)
    (custom_action_id work_package_id lock_version : Option Int)
    (upstream : Upstream) : OpOutcome :=
  match custom_action_id, work_package_id, lock_version with
  | some ca, some wp, some lv => execute_custom_action env ca wp lv upstream
  | _, _, _ =>
    { result := .error (.typeError "execute_custom_action() missing required argument"),
      sent := [] }

/-- `default_status_filter` of `list_work_packages` (lines 668-673): the
open-status filter, with `"values": None`. -/
def default_status_filter : JVal :=
  .obj [("status_id", .obj [("operator", .str "o"), ("values", .null)])]

/-- `list_work_packages` (lines 637-707), for the documented list form of
`filters`: injects the default open-status filter (kept for `None`,
dropped for `[]`, prepended otherwise), serializes filters and the fixed
sort to JSON strings, and issues one GET whose `params` keyword is accepted
by `make_request`. -/
def list_work_packages (cfg : GatewayConfig) (filters : Option (List JVal))
    (upstream : Upstream) : OpOutcome :=
  let api_url := "https://" ++ cfg.host ++ "/api/v3/work_packages"
  let headers := jsonHeaders cfg.apiKey
  let effective_filters : List JVal :=
    match filters with
    | none => [default_status_filter]
    | some [] => []
    | some fs => default_status_filter :: fs
  let effective_sort_by : JVal := .arr [.arr [.str "id", .str "asc"]]
  let params : Dict :=
    [("offset", .num 1),
     ("pageSize", .num 20),
     ("filters", .str (dumpsJ (.arr effective_filters))),
     ("sortBy", .str (dumpsJ effective_sort_by)),
     ("showSums", .str "false"),
     ("timestamps", .str "PT0S")]
  match callMakeRequest
      { url := api_url, method := "GET", headers := some headers,
        params := some params } upstream with
  | .ok (req, resp) => { result := .ok (dumpsJ resp), sent := req.toList }
  | .error e => { result := .ok ("Error listing work packages: " ++ pyStr e), sent := [] }

/-- The query parameters `get_project_work_packages` builds (lines 410-434):
each present input is added under its camelCase key; `filters` and `sort_by`
are serialized with `json.dumps` exactly once; `select` is comma-joined. -/
def get_project_work_packages_params (offset page_size : Option Int)
    (filters sort_by : Option JVal) (group_by : Option String)
    (show_sums : Option Bool) (select : Option (List String)) : Dict :=
  let params : Dict := []
  let params := addIfSome params "offset" offset .num
  let params := addIfSome params "pageSize" page_size .num
  let params := addIfSome params "filters" filters (fun f => .str (dumpsJ f))
  let params := addIfSome params "sortBy" sort_by (fun f => .str (dumpsJ f))
  let params := addIfSome params "groupBy" group_by .str
  let params := addIfSome params "showSums" show_sums
    (fun b => .str (if b then "true" else "false"))
  addIfSome params "select" select (fun l => .str (String.intercalate "," l))



/-! ## The local endpoint catalog (`search_endpoint` / `query_api`,
lines 1904-1955) -/

/-- One stored row of the `api_endpoints` table, in its column (text) form. -/
structure ApiRow where
  path : String
  method : String
  description : String
  request_body : String
  responses : String

/-- SQLite `LIKE` pattern matching, fueled so it is structurally recursive:
`%` matches any sequence, `_` any single character, anything else matches
itself up to ASCII case. Every recursive call shrinks `p.length + s.length`,
so any fuel above that sum gives the match relation itself. -/
def likeMatchFuel : Nat → List Char → List Char → Bool
  | 0, _, _ => false
  | _ + 1, [], s => s.isEmpty
  | fuel + 1, p :: ps, s =>
    if p = '%' then
      likeMatchFuel fuel ps s ||
        (match s with
         | [] => false
         | _ :: t => likeMatchFuel fuel (p :: ps) t)
    else
      match s with
      | [] => false
      | c :: t => (if p = '_' then true else asciiLower p == asciiLower c) && likeMatchFuel fuel ps t

/-- SQLite `LIKE` pattern matching against a string. -/
def likeMatchChars (p s : List Char) : Bool :=
  likeMatchFuel (p.length + s.length + 1) p s

theorem likeMatchFuel_congr (p s : List Char) (f₁ f₂ : Nat)
    (h₁ : p.length + s.length < f₁) (h₂ : p.length + s.length < f₂) :
    likeMatchFuel f₁ p s = likeMatchFuel f₂ p s := by
  induction f₁ generalizing p s f₂ with
  | zero => omega
  | succ f₁ ih =>
    cases f₂ with
    | zero => omega
    | succ f₂ =>
      cases p with
      | nil => rfl
      | cons a ps =>
        simp only [likeMatchFuel]
        by_cases ha : a = '%'
        · simp only [if_pos ha]
          cases s with
          | nil =>
            simp only []
            rw [ih ps [] f₂ (by simp at h₁ ⊢; omega) (by simp at h₂ ⊢; omega)]
          | cons c t =>
            dsimp only
            rw [ih ps (c :: t) f₂ (by simp at h₁ ⊢; omega) (by simp at h₂ ⊢; omega),
              ih (a :: ps) t f₂ (by simp at h₁ ⊢; omega) (by simp at h₂ ⊢; omega)]
        · simp only [if_neg ha]
          cases s with
          | nil => rfl
          | cons c t =>
            dsimp only
            rw [ih ps t f₂ (by simp at h₁ ⊢; omega) (by simp at h₂ ⊢; omega)]

/-- `path LIKE '%query%'` (line 1923). -/
def sqliteLikeContains (query s : String) : Bool :=
  likeMatchChars ('%' :: query.data ++ ['%']) s.data

/-- The dict built for one matching row (lines 1927-1929): the stored text
`"None"` becomes a null request body, everything else goes through
`json.loads` (`loads` stands for the Python json module, which is not part
of these sources). -/
def rowEntry (loads : String → JVal) (r : ApiRow) : Dict :=
  [("path", .str r.path),
   ("method", .str r.method),
   ("description", .str r.description),
   ("request_body", if r.request_body = "None" then JVal.null else loads r.request_body),
   ("responses", loads r.responses)]

/-- `search_endpoint` (lines 1905-1929): the rows whose path matches
`LIKE '%query%'`, each mapped to its result dict. -/
def search_endpoint (loads : String → JVal) (db : List ApiRow) (query : String) : List Dict :=
  (db.filter (fun r => sqliteLikeContains query r.path)).map (rowEntry loads)

/-- The error string `query_api` returns on an empty result (line 1951). -/
def noMatchError : String := dumpsJ (.obj [("error", .str "No matching endpoints found")])

/-- `query_api` (lines 1931-1955): an error object when nothing matched,
otherwise the `available_paths` list re-keyed from each match. -/
def query_api (loads : String → JVal) (db : List ApiRow) (query : String) : String :=
  let results := search_endpoint loads db query
  if results.isEmpty then
    noMatchError
  else
    dumpsJ (.obj [("available_paths", .arr (results.map (fun e =>
      .obj [("path", (dictGet e "path").getD .null),
            ("description", (dictGet e "description").getD .null),
            ("method", (dictGet e "method").getD .null),
            ("request_body", (dictGet e "request_body").getD .null),
            ("response", (dictGet e "responses").getD .null)])))])

/-! Claim-side matching predicates, written from the words of the spec
("contains the query as a case-sensitive, unanchored substring"), for
comparison with what the code computes. -/

/-- Boolean prefix test on character lists. -/
def isPrefixOfL : List Char → List Char → Bool
  | [], _ => true
  | _ :: _, [] => false
  | a :: as, b :: bs => a == b && isPrefixOfL as bs

/-- Boolean unanchored-substring test on character lists. -/
def isInfixOfL (p : List Char) : List Char → Bool
  | [] => p.isEmpty
  | c :: t => isPrefixOfL p (c :: t) || isInfixOfL p t

/-- Case-sensitive unanchored substring, as the spec words it. -/
def containsCS (query s : String) : Bool :=
  isInfixOfL query.data s.data

/-- ASCII case-insensitive unanchored substring, what `LIKE` computes for a
wildcard-free query. -/
def containsCI (query s : String) : Bool :=
  isInfixOfL (query.data.map asciiLower) (s.data.map asciiLower)

/-- For the claim: the rows a case-sensitive substring search would return. -/
def specSearchCS (db : List ApiRow) (query : String) : List ApiRow :=
  db.filter (fun r => containsCS query r.path)




theorem isPrefixOfL_nil_right (p : List Char) : isPrefixOfL p [] = p.isEmpty := by
  cases p <;> rfl

theorem lmf_pct_any : ∀ (f : Nat) (s : List Char), 1 + s.length < f →
    likeMatchFuel f ['%'] s = true := by
  intro f
  induction f with
  | zero => intro s h; omega
  | succ g ih =>
    intro s h
    simp only [likeMatchFuel, if_pos rfl]
    cases s with
    | nil =>
      cases g with
      | zero => omega
      | succ gg => simp [likeMatchFuel]
    | cons c t =>
      dsimp only
      rw [ih t (by simp at h ⊢; omega)]
      simp

theorem lmf_plain_append_pct (p : List Char) :
    (∀ c ∈ p, c ≠ '%' ∧ c ≠ '_') → ∀ (f : Nat) (s : List Char),
    (p ++ ['%']).length + s.length < f →
    likeMatchFuel f (p ++ ['%']) s = isPrefixOfL (p.map asciiLower) (s.map asciiLower) := by
  induction p with
  | nil =>
    intro _ f s h
    simp only [List.nil_append]
    rw [lmf_pct_any f s (by simp at h ⊢; omega)]
    simp [isPrefixOfL]
  | cons a as ih =>
    intro hp f s h
    have ha := hp a (List.mem_cons_self a as)
    have hp' : ∀ c ∈ as, c ≠ '%' ∧ c ≠ '_' := fun c hc => hp c (List.mem_cons_of_mem a hc)
    cases f with
    | zero => omega
    | succ g =>
      simp only [List.cons_append, likeMatchFuel, if_neg ha.1]
      cases s with
      | nil => simp [isPrefixOfL]
      | cons c t =>
        dsimp only
        rw [if_neg ha.2]
        simp only [List.append_eq]
        rw [ih hp' g t (by simp at h ⊢; omega)]
        simp [isPrefixOfL]

theorem lmf_pct_wrap (q : List Char) (hq : ∀ c ∈ q, c ≠ '%' ∧ c ≠ '_') :
    ∀ (s : List Char) (f : Nat), ('%' :: (q ++ ['%'])).length + s.length < f →
    likeMatchFuel f ('%' :: (q ++ ['%'])) s = isInfixOfL (q.map asciiLower) (s.map asciiLower) := by
  intro s
  induction s with
  | nil =>
    intro f h
    cases f with
    | zero => omega
    | succ g =>
      simp only [likeMatchFuel, if_pos rfl]
      rw [lmf_plain_append_pct q hq g [] (by simp at h ⊢; omega)]
      simp [isInfixOfL, isPrefixOfL_nil_right]
  | cons c t ih =>
    intro f h
    cases f with
    | zero => omega
    | succ g =>
      simp only [likeMatchFuel, if_pos rfl]
      rw [lmf_plain_append_pct q hq g (c :: t) (by simp at h ⊢; omega),
        ih g (by simp at h ⊢; omega)]
      simp [isInfixOfL]

/-- For a query without `%` or `_`, the `LIKE '%query%'` match of
`search_endpoint` is exactly ASCII case-insensitive unanchored substring
containment - not the case-sensitive containment the spec words claim. -/
theorem sqliteLikeContains_eq_containsCI (query s : String)
    (hq : ∀ c ∈ query.data, c ≠ '%' ∧ c ≠ '_') :
    sqliteLikeContains query s = containsCI query s := by
  unfold sqliteLikeContains containsCI likeMatchChars
  rw [show '%' :: query.data ++ ['%'] = '%' :: (query.data ++ ['%']) from rfl]
  exact lmf_pct_wrap query.data hq s.data _ (by omega)



/-! ## A parser for the filter serialization (claim-side decoding)

`json.loads` is modeled by a parser for exactly the grammar `json.dumps`
emits on filter lists; the round-trip theorem shows decoding recovers the
structure the gateway serialized. -/

/-- One key-operator-values filter triple, the structured filter shape the
list operations accept. -/
abbrev FilterItem := String × String × List String

/-- A structured filter list. -/
abbrev FilterList := List FilterItem

/-- The JSON form `get_project_work_packages` receives for one filter item:
`\x7b"key": \x7b"operator": op, "values": [...]\x7d\x7d`. -/
def filterItemJson (it : FilterItem) : JVal :=
  .obj [(it.1, .obj [("operator", .str it.2.1), ("values", .arr (it.2.2.map .str))])]

/-- The one `json.dumps` serialization of a filter list (line 420). -/
def dumpsFilters (fs : FilterList) : String :=
  dumpsJ (.arr (fs.map filterItemJson))

/-- Value of one hex digit (json.loads accepts both cases). -/
def hexVal (c : Char) : Option Nat :=
  if '0' ≤ c ∧ c ≤ '9' then some (c.toNat - 48)
  else if 'a' ≤ c ∧ c ≤ 'f' then some (c.toNat - 87)
  else if 'A' ≤ c ∧ c ≤ 'F' then some (c.toNat - 55)
  else none

/-- Four hex digits. -/
def parseHex4 : List Char → Option (Nat × List Char)
  | a :: b :: c :: d :: r =>
    match hexVal a, hexVal b, hexVal c, hexVal d with
    | some x, some y, some z, some w => some (x * 4096 + y * 256 + z * 16 + w, r)
    | _, _, _, _ => none
  | _ => none

theorem hexVal_hexDigitChar (d : Nat) (h : d < 16) : hexVal (hexDigitChar d) = some d := by
  interval_cases d <;> decide

theorem parseHex4_length {r : List Char} {n : Nat} {r' : List Char}
    (h : parseHex4 r = some (n, r')) : r'.length + 4 = r.length := by
  match r with
  | [] => simp [parseHex4] at h
  | [a] => simp [parseHex4] at h
  | [a, b] => simp [parseHex4] at h
  | [a, b, c] => simp [parseHex4] at h
  | a :: b :: c :: d :: t =>
    simp only [parseHex4] at h
    split at h
    · cases h; simp
    · simp at h

theorem parseHex4_hex4 (n : Nat) (h : n < 65536) (r : List Char) :
    parseHex4 (hex4 n ++ r) = some (n, r) := by
  have h1 : n / 4096 % 16 < 16 := Nat.mod_lt _ (by norm_num)
  have h2 : n / 256 % 16 < 16 := Nat.mod_lt _ (by norm_num)
  have h3 : n / 16 % 16 < 16 := Nat.mod_lt _ (by norm_num)
  have h4 : n % 16 < 16 := Nat.mod_lt _ (by norm_num)
  simp only [hex4, List.cons_append, List.nil_append, parseHex4,
    hexVal_hexDigitChar _ h1, hexVal_hexDigitChar _ h2,
    hexVal_hexDigitChar _ h3, hexVal_hexDigitChar _ h4]
  simp only [Option.some.injEq, Prod.mk.injEq]
  exact ⟨by omega, by simp⟩

/-- The `\uXXXX` form, one unit or a surrogate pair (the `\u` already
consumed). -/
def parseEscU (r : List Char) : Option (Char × List Char) :=
  match parseHex4 r with
  | some (n, r') =>
    if 55296 ≤ n ∧ n < 56320 then
      match r' with
      | e :: f :: r2 =>
        if e = '\\' ∧ f = 'u' then
          match parseHex4 r2 with
          | some (m, r3) =>
            if 56320 ≤ m ∧ m < 57344 then
              some (Char.ofNat (65536 + (n - 55296) * 1024 + (m - 56320)), r3)
            else none
          | none => none
        else none
      | _ => none
    else if 56320 ≤ n ∧ n < 57344 then none
    else some (Char.ofNat n, r')
  | none => none

/-- One backslash escape (the backslash already consumed). -/
def parseEsc (t : List Char) : Option (Char × List Char) :=
  match t with
  | [] => none
  | c :: r =>
    if c = '"' then some ('"', r)
    else if c = '\\' then some ('\\', r)
    else if c = 'n' then some ('\n', r)
    else if c = 'r' then some ('\r', r)
    else if c = 't' then some ('\t', r)
    else if c = 'b' then some (Char.ofNat 8, r)
    else if c = 'f' then some (Char.ofNat 12, r)
    else if c = 'u' then parseEscU r
    else none

theorem parseEscU_length {r : List Char} {d : Char} {rest : List Char}
    (h : parseEscU r = some (d, rest)) : rest.length < r.length := by
  unfold parseEscU at h
  rcases hp : parseHex4 r with _ | ⟨n, r'⟩ <;> rw [hp] at h <;> dsimp only at h
  · simp at h
  · have hl := parseHex4_length hp
    split_ifs at h with hs1 hs2
    · match hr : r' with
      | [] => simp at h
      | [e] => simp at h
      | e :: f :: r2 =>
        dsimp only at h
        split_ifs at h with hef
        rcases hp2 : parseHex4 r2 with _ | ⟨m, r3⟩ <;> rw [hp2] at h <;> dsimp only at h
        · simp at h
        · have hl2 := parseHex4_length hp2
          split_ifs at h
          injection h with h1
          injection h1 with h1a h1b
          subst h1b
          simp at hl hl2
          omega
    · injection h with h1
      injection h1 with h1a h1b
      subst h1b
      omega

theorem parseEsc_length {t : List Char} {d : Char} {rest : List Char}
    (h : parseEsc t = some (d, rest)) : rest.length < t.length := by
  match t with
  | [] => simp [parseEsc] at h
  | c :: r =>
    simp only [parseEsc] at h
    split_ifs at h with h1 h2 h3 h4 h5 h6 h7 h8 <;>
      first
      | (cases h; simp)
      | (have hu := parseEscU_length h; simp; omega)
      | simp at h


/-- The body of a JSON string after the opening quote: characters up to the
closing quote, unescaping as `json.loads` does. -/
def parseStrChars (s : List Char) : Option (List Char × List Char) :=
  match s with
  | [] => none
  | c :: t =>
    if c = '"' then some ([], t)
    else if c = '\\' then
      match h : parseEsc t with
      | some (d, r) =>
        match parseStrChars r with
        | some (cs, r') => some (d :: cs, r')
        | none => none
      | none => none
    else
      match parseStrChars t with
      | some (cs, r') => some (c :: cs, r')
      | none => none
termination_by s.length
decreasing_by
· have := parseEsc_length h
  simp only [List.length_cons]
  omega
· simp only [List.length_cons]
  omega

theorem parseStrChars_length_aux : ∀ (n : Nat) (s : List Char), s.length ≤ n →
    ∀ cs r, parseStrChars s = some (cs, r) → r.length < s.length := by
  intro n
  induction n with
  | zero =>
    intro s hs cs r h
    have hnil : s = [] := List.eq_nil_of_length_eq_zero (by omega)
    subst hnil
    rw [parseStrChars.eq_def] at h
    simp at h
  | succ n ih =>
    intro s hs cs r h
    rw [parseStrChars.eq_def] at h
    rcases s with _ | ⟨c, t⟩
    · simp at h
    · simp only at h
      split_ifs at h with hc hb
      · injection h with h1
        injection h1 with ha hb2
        subst hb2
        simp
      · split at h
        · rename_i d1 r1 heq
          split at h
          · rename_i cs1 r2 heq2
            injection h with h1
            injection h1 with ha hb2
            subst hb2
            have e1 := parseEsc_length heq
            have e2 := ih r1 (by simp at hs e1 ⊢; omega) cs1 r2 heq2
            simp only [List.length_cons]
            omega
          · simp at h
        · simp at h
      · split at h
        · rename_i cs1 r2 heq2
          injection h with h1
          injection h1 with ha hb2
          subst hb2
          have e2 := ih t (by simp at hs ⊢; omega) cs1 r2 heq2
          simp only [List.length_cons]
          omega
        · simp at h

theorem parseStrChars_length {s cs r : List Char}
    (h : parseStrChars s = some (cs, r)) : r.length < s.length :=
  parseStrChars_length_aux s.length s le_rfl cs r h



/-- A serialized JSON string: opening quote, body, closing quote. -/
def parseJString (s : List Char) : Option (String × List Char) :=
  match s with
  | [] => none
  | c :: t =>
    if c = '"' then (parseStrChars t).map (fun p => (String.mk p.1, p.2)) else none

theorem parseJString_length {s : List Char} {v : String} {r : List Char}
    (h : parseJString s = some (v, r)) : r.length < s.length := by
  rcases s with _ | ⟨c, t⟩
  · simp [parseJString] at h
  · simp only [parseJString] at h
    split_ifs at h
    rcases hp : parseStrChars t with _ | ⟨cs, r'⟩ <;> rw [hp] at h <;> simp at h
    obtain ⟨-, rfl⟩ := h
    have := parseStrChars_length hp
    simp only [List.length_cons]
    omega

theorem char_toNat_valid (c : Char) :
    c.toNat < 55296 ∨ (57343 < c.toNat ∧ c.toNat < 1114112) := by
  rcases c.valid with h | ⟨h1, h2⟩
  · exact Or.inl (UInt32.toNat_lt_of_lt (by norm_num [UInt32.size]) h)
  · exact Or.inr ⟨UInt32.lt_toNat_of_lt (by norm_num [UInt32.size]) h1,
      UInt32.toNat_lt_of_lt (by norm_num [UInt32.size]) h2⟩

theorem parseEsc_quote (r : List Char) : parseEsc ('"' :: r) = some ('"', r) := rfl

theorem parseEsc_backslash (r : List Char) : parseEsc ('\\' :: r) = some ('\\', r) := rfl

theorem parseEsc_n (r : List Char) : parseEsc ('n' :: r) = some ('\n', r) := rfl

theorem parseEsc_r (r : List Char) : parseEsc ('r' :: r) = some ('\r', r) := rfl

theorem parseEsc_t (r : List Char) : parseEsc ('t' :: r) = some ('\t', r) := rfl

theorem parseEsc_b (r : List Char) : parseEsc ('b' :: r) = some (Char.ofNat 8, r) := rfl

theorem parseEsc_f (r : List Char) : parseEsc ('f' :: r) = some (Char.ofNat 12, r) := rfl

theorem parseEsc_u (r : List Char) : parseEsc ('u' :: r) = parseEscU r := rfl

theorem parseEscU_bmp (n : Nat) (h1 : n < 65536) (h2 : n < 55296 ∨ 57344 ≤ n)
    (rest : List Char) : parseEscU (hex4 n ++ rest) = some (Char.ofNat n, rest) := by
  unfold parseEscU
  rw [parseHex4_hex4 n h1 rest]
  dsimp only
  rw [if_neg (by omega), if_neg (by omega)]

theorem parseEscU_pair_gen (hi lo : Nat) (hhi1 : 55296 <= hi) (hhi2 : hi < 56320)
    (hlo1 : 56320 <= lo) (hlo2 : lo < 57344) (rest : List Char) :
    parseEscU (hex4 hi ++ ('\\' :: 'u' :: (hex4 lo ++ rest))) =
    some (Char.ofNat (65536 + (hi - 55296) * 1024 + (lo - 56320)), rest) := by
  have e1 := parseHex4_hex4 hi (by omega) ('\\' :: 'u' :: (hex4 lo ++ rest))
  have e2 := parseHex4_hex4 lo (by omega) rest
  simp only [parseEscU, e1, e2]
  rw [if_pos (show 55296 <= hi /\ hi < 56320 from ⟨hhi1, hhi2⟩)]
  rw [if_pos (show True /\ True from ⟨trivial, trivial⟩)]
  rw [if_pos (show 56320 <= lo /\ lo < 57344 from ⟨hlo1, hlo2⟩)]

theorem parseEscU_pair (n : Nat) (h1 : 65536 <= n) (h2 : n < 1114112) (rest : List Char) :
    parseEscU (hex4 (55296 + (n - 65536) / 1024) ++
      ('\\' :: 'u' :: (hex4 (56320 + (n - 65536) % 1024) ++ rest))) =
    some (Char.ofNat n, rest) := by
  rw [parseEscU_pair_gen (55296 + (n - 65536) / 1024) (56320 + (n - 65536) % 1024)
    (by omega) (by omega) (by omega) (by omega) rest]
  have harith : 65536 + (55296 + (n - 65536) / 1024 - 55296) * 1024 +
      (56320 + (n - 65536) % 1024 - 56320) = n := by omega
  rw [harith]

theorem parseStrChars_cons_quote (t : List Char) : parseStrChars ('"' :: t) = some ([], t) := by
  rw [parseStrChars.eq_def]
  dsimp only
  rw [if_pos rfl]

theorem parseStrChars_cons_backslash (t : List Char) (d : Char) (r1 : List Char)
    (h : parseEsc t = some (d, r1)) :
    parseStrChars ('\\' :: t) = (parseStrChars r1).map (fun p => (d :: p.1, p.2)) := by
  rw [parseStrChars.eq_def]
  dsimp only
  rw [if_neg (by decide), if_pos rfl]
  split
  · rename_i d2 r2 heq
    rw [h] at heq
    injection heq with heq1
    injection heq1 with ha hb
    subst ha
    subst hb
    rcases hp : parseStrChars r1 with _ | ⟨cs2, rr⟩ <;> simp
  · rename_i heq
    rw [h] at heq
    simp at heq

theorem parseStrChars_cons_plain (c : Char) (hc : c ≠ '"') (hb : c ≠ '\\') (t : List Char) :
    parseStrChars (c :: t) = (parseStrChars t).map (fun p => (c :: p.1, p.2)) := by
  rw [parseStrChars.eq_def]
  dsimp only
  rw [if_neg hc, if_neg hb]
  rcases hp : parseStrChars t with _ | ⟨cs2, rr⟩ <;> simp [hp]



theorem parseStrChars_escChars (cs : List Char) (r : List Char) :
    parseStrChars (escChars cs ++ '"' :: r) = some (cs, r) := by
  induction cs generalizing r with
  | nil =>
    simp only [escChars, List.nil_append]
    exact parseStrChars_cons_quote r
  | cons c cs ih =>
    have hval := char_toNat_valid c
    simp only [escChars, List.append_assoc]
    by_cases h1 : c = '"'
    · subst h1
      rw [show escChar '"' = ['\\', '"'] from rfl]
      rw [show (['\\', '"'] : List Char) ++ (escChars cs ++ '"' :: r) =
        '\\' :: ('"' :: (escChars cs ++ '"' :: r)) from rfl]
      rw [parseStrChars_cons_backslash _ _ _ (parseEsc_quote _), ih]
      rfl
    · by_cases h2 : c = '\\'
      · subst h2
        rw [show escChar '\\' = ['\\', '\\'] from rfl]
        rw [show (['\\', '\\'] : List Char) ++ (escChars cs ++ '"' :: r) =
          '\\' :: ('\\' :: (escChars cs ++ '"' :: r)) from rfl]
        rw [parseStrChars_cons_backslash _ _ _ (parseEsc_backslash _), ih]
        rfl
      · by_cases h3 : c = '\n'
        · subst h3
          rw [show escChar '\n' = ['\\', 'n'] from rfl]
          rw [show (['\\', 'n'] : List Char) ++ (escChars cs ++ '"' :: r) =
            '\\' :: ('n' :: (escChars cs ++ '"' :: r)) from rfl]
          rw [parseStrChars_cons_backslash _ _ _ (parseEsc_n _), ih]
          rfl
        · by_cases h4 : c = '\r'
          · subst h4
            rw [show escChar '\r' = ['\\', 'r'] from rfl]
            rw [show (['\\', 'r'] : List Char) ++ (escChars cs ++ '"' :: r) =
              '\\' :: ('r' :: (escChars cs ++ '"' :: r)) from rfl]
            rw [parseStrChars_cons_backslash _ _ _ (parseEsc_r _), ih]
            rfl
          · by_cases h5 : c = '\t'
            · subst h5
              rw [show escChar '\t' = ['\\', 't'] from rfl]
              rw [show (['\\', 't'] : List Char) ++ (escChars cs ++ '"' :: r) =
                '\\' :: ('t' :: (escChars cs ++ '"' :: r)) from rfl]
              rw [parseStrChars_cons_backslash _ _ _ (parseEsc_t _), ih]
              rfl
            · by_cases h6 : c.toNat = 8
              · have hd : Char.ofNat 8 = c := by rw [← h6, Char.ofNat_toNat]
                rw [show escChar c = ['\\', 'b'] from by
                  simp [escChar, h1, h2, h3, h4, h5, h6]]
                rw [show (['\\', 'b'] : List Char) ++ (escChars cs ++ '"' :: r) =
                  '\\' :: ('b' :: (escChars cs ++ '"' :: r)) from rfl]
                rw [parseStrChars_cons_backslash _ _ _ (parseEsc_b _), ih]
                rw [hd]
                rfl
              · by_cases h7 : c.toNat = 12
                · have hd : Char.ofNat 12 = c := by rw [← h7, Char.ofNat_toNat]
                  rw [show escChar c = ['\\', 'f'] from by
                    simp [escChar, h1, h2, h3, h4, h5, h6, h7]]
                  rw [show (['\\', 'f'] : List Char) ++ (escChars cs ++ '"' :: r) =
                    '\\' :: ('f' :: (escChars cs ++ '"' :: r)) from rfl]
                  rw [parseStrChars_cons_backslash _ _ _ (parseEsc_f _), ih]
                  rw [hd]
                  rfl
                · by_cases h8 : c.toNat < 32 ∨ c.toNat > 126
                  · by_cases h9 : c.toNat < 65536
                    · have hns : c.toNat < 55296 ∨ 57344 ≤ c.toNat := by omega
                      rw [show escChar c = '\\' :: 'u' :: hex4 c.toNat from by
                        simp [escChar, h1, h2, h3, h4, h5, h6, h7, h8, h9]]
                      rw [show ('\\' :: 'u' :: hex4 c.toNat) ++ (escChars cs ++ '"' :: r) =
                        '\\' :: ('u' :: (hex4 c.toNat ++ (escChars cs ++ '"' :: r))) from by simp]
                      rw [parseStrChars_cons_backslash _ _ _
                        ((parseEsc_u _).trans (parseEscU_bmp c.toNat h9 hns _)), ih]
                      rw [Char.ofNat_toNat]
                      rfl
                    · have hge : 65536 ≤ c.toNat := by omega
                      have hlt : c.toNat < 1114112 := by omega
                      rw [show escChar c = ('\\' :: 'u' :: hex4 (55296 + (c.toNat - 65536) / 1024)) ++
                        ('\\' :: 'u' :: hex4 (56320 + (c.toNat - 65536) % 1024)) from by
                        simp [escChar, h1, h2, h3, h4, h5, h6, h7, h8, h9]]
                      rw [show (('\\' :: 'u' :: hex4 (55296 + (c.toNat - 65536) / 1024)) ++
                          ('\\' :: 'u' :: hex4 (56320 + (c.toNat - 65536) % 1024))) ++
                          (escChars cs ++ '"' :: r) =
                        '\\' :: ('u' :: (hex4 (55296 + (c.toNat - 65536) / 1024) ++
                          ('\\' :: 'u' :: (hex4 (56320 + (c.toNat - 65536) % 1024) ++
                            (escChars cs ++ '"' :: r))))) from by simp]
                      rw [parseStrChars_cons_backslash _ _ _
                        ((parseEsc_u _).trans (parseEscU_pair c.toNat hge hlt _)), ih]
                      rw [Char.ofNat_toNat]
                      rfl
                  · rw [show escChar c = [c] from by
                      simp [escChar, h1, h2, h3, h4, h5, h6, h7, h8]]
                    rw [show ([c] : List Char) ++ (escChars cs ++ '"' :: r) =
                      c :: (escChars cs ++ '"' :: r) from rfl]
                    rw [parseStrChars_cons_plain c h1 h2 _, ih]
                    rfl

theorem parseJString_dumpsStr (v : String) (r : List Char) :
    parseJString (dumpsStrChars v ++ r) = some (v, r) := by
  rcases v with ⟨cs⟩
  rw [show dumpsStrChars ⟨cs⟩ ++ r = '"' :: (escChars cs ++ '"' :: r) from by
    simp [dumpsStrChars]]
  simp only [parseJString, if_pos rfl]
  rw [parseStrChars_escChars cs r]
  rfl



/-- Expect a literal character sequence, returning the rest. -/
def expectLit : List Char → List Char → Option (List Char)
  | [], s => some s
  | _ :: _, [] => none
  | a :: ls, b :: t => if a = b then expectLit ls t else none

theorem expectLit_length {ls s r : List Char} (h : expectLit ls s = some r) :
    r.length + ls.length = s.length := by
  induction ls generalizing s with
  | nil =>
    simp [expectLit] at h
    subst h
    simp
  | cons a ls ih =>
    rcases s with _ | ⟨b, t⟩
    · simp [expectLit] at h
    · simp only [expectLit] at h
      split_ifs at h
      have := ih h
      simp only [List.length_cons]
      omega

theorem expectLit_append (ls r : List Char) : expectLit ls (ls ++ r) = some r := by
  induction ls with
  | nil => rfl
  | cons a ls ih =>
    simp only [List.cons_append, expectLit, if_pos rfl]
    exact ih

/-- The tail of a serialized string array after its first element:
`", v"` segments. -/
def strTail : List String → List Char
  | [] => []
  | v :: vs => ',' :: ' ' :: (dumpsStrChars v ++ strTail vs)

/-- Loop of a serialized string array after one parsed element: `]` ends it,
`", "` continues with another string. -/
def parseStringListRest (s : List Char) : Option (List String × List Char) :=
  match s with
  | [] => none
  | c :: t =>
    if c = ']' then some ([], t)
    else if c = ',' then
      match t with
      | [] => none
      | d :: t2 =>
        if d = ' ' then
          match h : parseJString t2 with
          | some (v, t') =>
            match parseStringListRest t' with
            | some (vs, r) => some (v :: vs, r)
            | none => none
          | none => none
        else none
    else none
termination_by s.length
decreasing_by
  have := parseJString_length h
  simp only [List.length_cons]
  omega

/-- A serialized string array `["a", "b"]`. -/
def parseStringList (s : List Char) : Option (List String × List Char) :=
  match s with
  | c :: d :: t2 =>
    if c = '[' then
      if d = ']' then some ([], t2)
      else
        match parseJString (d :: t2) with
        | some (v, t') =>
          match parseStringListRest t' with
          | some (vs, r) => some (v :: vs, r)
          | none => none
        | none => none
    else none
  | _ => none

theorem parseStringListRest_length_aux : ∀ (n : Nat) (s : List Char), s.length ≤ n →
    ∀ vs r, parseStringListRest s = some (vs, r) → r.length < s.length := by
  intro n
  induction n with
  | zero =>
    intro s hs vs r h
    have hnil : s = [] := List.eq_nil_of_length_eq_zero (by omega)
    subst hnil
    rw [parseStringListRest.eq_def] at h
    simp at h
  | succ n ih =>
    intro s hs vs r h
    rw [parseStringListRest.eq_def] at h
    rcases s with _ | ⟨c, t⟩
    · simp at h
    · simp only at h
      split_ifs at h with hc hcomma
      · injection h with h1
        injection h1 with ha hb
        subst hb
        simp
      · rcases t with _ | ⟨d, t2⟩
        · simp at h
        · simp only at h
          split_ifs at h with hd
          split at h
          · rename_i v t' heq
            split at h
            · rename_i vs2 r2 heq2
              injection h with h1
              injection h1 with ha hb
              subst hb
              have e1 := parseJString_length heq
              have e2 := ih t' (by simp at hs e1 ⊢; omega) vs2 r2 heq2
              simp only [List.length_cons]
              omega
            · simp at h
          · simp at h

theorem parseStringListRest_length {s : List Char} {vs : List String} {r : List Char}
    (h : parseStringListRest s = some (vs, r)) : r.length < s.length :=
  parseStringListRest_length_aux s.length s le_rfl vs r h

theorem parseStringList_length {s : List Char} {vs : List String} {r : List Char}
    (h : parseStringList s = some (vs, r)) : r.length < s.length := by
  rcases s with _ | ⟨c, _ | ⟨d, t2⟩⟩
  · simp [parseStringList] at h
  · simp [parseStringList] at h
  · simp only [parseStringList] at h
    split_ifs at h with hc hd
    · injection h with h1
      injection h1 with ha hb
      subst hb
      simp only [List.length_cons]
      omega
    · split at h
      · rename_i v t' heq
        split at h
        · rename_i vs2 r2 heq2
          injection h with h1
          injection h1 with ha hb
          subst hb
          have e1 := parseJString_length heq
          have e2 := parseStringListRest_length heq2
          simp only [List.length_cons] at e1 ⊢
          omega
        · simp at h
      · simp at h



theorem parseJString_dumpsStr_cons (v : String) (x : List Char) :
    parseJString ('"' :: (escChars v.data ++ ('"' :: x))) = some (v, x) := by
  have h := parseJString_dumpsStr v x
  rw [show dumpsStrChars v ++ x = '"' :: (escChars v.data ++ ('"' :: x)) from by
    simp [dumpsStrChars]] at h
  exact h

theorem parseStringListRest_rbracket (t : List Char) :
    parseStringListRest (']' :: t) = some ([], t) := by
  rw [parseStringListRest.eq_def]
  dsimp only
  rw [if_pos rfl]

theorem parseStringListRest_comma (t2 : List Char) (v : String) (t' : List Char)
    (h : parseJString t2 = some (v, t')) :
    parseStringListRest (',' :: ' ' :: t2) =
      (parseStringListRest t').map (fun p => (v :: p.1, p.2)) := by
  rw [parseStringListRest.eq_def]
  dsimp only
  rw [if_neg (by decide), if_pos rfl, if_pos rfl]
  split
  · rename_i v2 t2' heq
    rw [h] at heq
    injection heq with heq1
    injection heq1 with ha hb
    subst ha
    subst hb
    rcases hp : parseStringListRest t' with _ | ⟨vs, rr⟩ <;> simp
  · rename_i heq
    rw [h] at heq
    simp at heq

theorem dumpsArrChars_strs (v : String) (vs : List String) :
    dumpsArrChars ((v :: vs).map .str) = dumpsStrChars v ++ strTail vs := by
  induction vs generalizing v with
  | nil => simp [dumpsArrChars, dumpsJChars, strTail]
  | cons w ws ih =>
    rw [show (v :: w :: ws).map JVal.str = .str v :: .str w :: ws.map .str from rfl]
    rw [dumpsArrChars]
    rw [show (JVal.str w :: ws.map .str) = (w :: ws).map .str from rfl]
    rw [ih w]
    simp [strTail, dumpsJChars]

theorem parseStringListRest_strTail (vs : List String) (r : List Char) :
    parseStringListRest (strTail vs ++ ']' :: r) = some (vs, r) := by
  induction vs generalizing r with
  | nil => simpa [strTail] using parseStringListRest_rbracket r
  | cons v vs ih =>
    rw [show strTail (v :: vs) ++ ']' :: r =
      ',' :: ' ' :: (dumpsStrChars v ++ (strTail vs ++ ']' :: r)) from by simp [strTail]]
    rw [parseStringListRest_comma _ v _ (parseJString_dumpsStr v _), ih]
    rfl

theorem parseStringList_inv (vs : List String) (r : List Char) :
    parseStringList (dumpsJChars (.arr (vs.map .str)) ++ r) = some (vs, r) := by
  rcases vs with _ | ⟨v, vs⟩
  · rw [show dumpsJChars (.arr (([] : List String).map .str)) ++ r = '[' :: ']' :: r from rfl]
    simp [parseStringList]
  · rw [show dumpsJChars (.arr ((v :: vs).map .str)) ++ r =
        '[' :: '"' :: (escChars v.data ++ ('"' :: (strTail vs ++ ']' :: r))) from by
      rw [show dumpsJChars (.arr ((v :: vs).map .str)) =
        '[' :: dumpsArrChars ((v :: vs).map .str) ++ [']'] from rfl]
      rw [dumpsArrChars_strs]
      simp [dumpsStrChars]]
    rw [show parseStringList ('[' :: '"' :: (escChars v.data ++ ('"' :: (strTail vs ++ ']' :: r)))) =
        match parseJString ('"' :: (escChars v.data ++ ('"' :: (strTail vs ++ ']' :: r)))) with
        | some (w, t') =>
          match parseStringListRest t' with
          | some (ws, rr) => some (w :: ws, rr)
          | none => none
        | none => none from by
      simp [parseStringList]]
    rw [parseJString_dumpsStr_cons]
    dsimp only
    rw [parseStringListRest_strTail]



@[simp] theorem expectLit_nil (x : List Char) : expectLit [] x = some x := rfl

@[simp] theorem expectLit_cons_same (a : Char) (ls x : List Char) :
    expectLit (a :: ls) (a :: x) = expectLit ls x := by
  simp [expectLit]

/-- One serialized filter item
`\x7b"key": \x7b"operator": "op", "values": [...]\x7d\x7d`. -/
def parseItem (s : List Char) : Option (FilterItem × List Char) := do
  let t1 ← expectLit [lbraceC] s
  let (key, t2) ← parseJString t1
  let t3 ← expectLit [':', ' ', lbraceC] t2
  let (okey, t4) ← parseJString t3
  if okey = "operator" then
    let t5 ← expectLit [':', ' '] t4
    let (op, t6) ← parseJString t5
    let t7 ← expectLit [',', ' '] t6
    let (vkey, t8) ← parseJString t7
    if vkey = "values" then
      let t9 ← expectLit [':', ' '] t8
      let (vals, t10) ← parseStringList t9
      let t11 ← expectLit [rbraceC, rbraceC] t10
      pure ((key, op, vals), t11)
    else none
  else none

theorem parseStringList_inv_cons (vs : List String) (x : List Char) :
    parseStringList ('[' :: (dumpsArrChars (vs.map .str) ++ ']' :: x)) = some (vs, x) := by
  have h := parseStringList_inv vs x
  rw [show dumpsJChars (.arr (vs.map .str)) ++ x =
    '[' :: (dumpsArrChars (vs.map .str) ++ ']' :: x) from by
    rw [show dumpsJChars (.arr (vs.map .str)) =
      '[' :: dumpsArrChars (vs.map .str) ++ [']'] from rfl]
    simp] at h
  exact h

theorem parseJString_operator_lit (x : List Char) :
    parseJString ('"' :: (escChars ['o', 'p', 'e', 'r', 'a', 't', 'o', 'r'] ++ '"' :: x)) =
      some ("operator", x) := by
  have h := parseJString_dumpsStr_cons "operator" x
  rw [show "operator".data = ['o', 'p', 'e', 'r', 'a', 't', 'o', 'r'] from rfl] at h
  exact h

theorem parseJString_values_lit (x : List Char) :
    parseJString ('"' :: (escChars ['v', 'a', 'l', 'u', 'e', 's'] ++ '"' :: x)) =
      some ("values", x) := by
  have h := parseJString_dumpsStr_cons "values" x
  rw [show "values".data = ['v', 'a', 'l', 'u', 'e', 's'] from rfl] at h
  exact h

theorem parseItem_inv (it : FilterItem) (r : List Char) :
    parseItem (dumpsJChars (filterItemJson it) ++ r) = some (it, r) := by
  obtain ⟨k, op, vals⟩ := it
  simp only [filterItemJson, parseItem, dumpsJChars, dumpsObjChars, dumpsStrChars,
    List.append_assoc, List.cons_append, List.nil_append, List.singleton_append,
    expectLit_cons_same, expectLit_nil, Option.bind, parseJString_dumpsStr_cons,
    parseStringList_inv_cons]
  simp [parseJString_dumpsStr_cons, parseStringList_inv_cons, Option.bind,
    parseJString_operator_lit, parseJString_values_lit]



/-- The tail of a serialized filter array after its first item. -/
def itemTail : FilterList → List Char
  | [] => []
  | it :: fs => ',' :: ' ' :: (dumpsJChars (filterItemJson it) ++ itemTail fs)

/-- Loop of a serialized filter array after one parsed item, fueled by an
upper bound on the number of remaining items. -/
def parseItemsRestF : Nat → List Char → Option (FilterList × List Char)
  | 0, _ => none
  | fuel + 1, s =>
    match s with
    | [] => none
    | c :: t =>
      if c = ']' then some ([], t)
      else if c = ',' then
        match t with
        | [] => none
        | d :: t2 =>
          if d = ' ' then
            match parseItem t2 with
            | some (it, t') =>
              match parseItemsRestF fuel t' with
              | some (its, r) => some (it :: its, r)
              | none => none
            | none => none
          else none
      else none

/-- A serialized filter array `[item, item]`. -/
def parseItems (s : List Char) : Option (FilterList × List Char) :=
  match s with
  | c :: d :: t2 =>
    if c = '[' then
      if d = ']' then some ([], t2)
      else
        match parseItem (d :: t2) with
        | some (it, t') =>
          match parseItemsRestF t'.length t' with
          | some (its, r) => some (it :: its, r)
          | none => none
        | none => none
    else none
  | _ => none

/-- The claim-side decoder for the filter serialization: parse the whole
string as a filter array with nothing left over. -/
def loadsFilters (s : String) : Option FilterList :=
  match parseItems s.data with
  | some (fs, []) => some fs
  | _ => none

theorem dumpsArrChars_items (it : FilterItem) (fs : FilterList) :
    dumpsArrChars ((it :: fs).map filterItemJson) =
      dumpsJChars (filterItemJson it) ++ itemTail fs := by
  induction fs generalizing it with
  | nil => simp [dumpsArrChars, itemTail]
  | cons it2 fs ih =>
    rw [show (it :: it2 :: fs).map filterItemJson =
      filterItemJson it :: filterItemJson it2 :: fs.map filterItemJson from rfl]
    rw [dumpsArrChars]
    rw [show (filterItemJson it2 :: fs.map filterItemJson) =
      (it2 :: fs).map filterItemJson from rfl]
    rw [ih it2]
    simp [itemTail]

theorem itemTail_length (fs : FilterList) : fs.length ≤ (itemTail fs).length := by
  induction fs with
  | nil => simp [itemTail]
  | cons it fs ih => simp [itemTail]; omega

theorem parseItemsRestF_itemTail (fs : FilterList) :
    ∀ (r : List Char) (fuel : Nat), fs.length < fuel →
    parseItemsRestF fuel (itemTail fs ++ ']' :: r) = some (fs, r) := by
  induction fs with
  | nil =>
    intro r fuel hf
    cases fuel with
    | zero => omega
    | succ f => simp [parseItemsRestF, itemTail]
  | cons it fs ih =>
    intro r fuel hf
    cases fuel with
    | zero => omega
    | succ f =>
      rw [show itemTail (it :: fs) ++ ']' :: r =
        ',' :: ' ' :: (dumpsJChars (filterItemJson it) ++ (itemTail fs ++ ']' :: r)) from by
        simp [itemTail]]
      simp only [parseItemsRestF]
      rw [if_pos trivial, if_pos trivial]
      rw [parseItem_inv it (itemTail fs ++ ']' :: r)]
      rw [if_neg (show ¬(',' : Char) = ']' by decide)]
      dsimp only
      rw [ih r f (by simp at hf ⊢; omega)]

theorem parseItems_dumps (fs : FilterList) (r : List Char) :
    parseItems (dumpsJChars (.arr (fs.map filterItemJson)) ++ r) = some (fs, r) := by
  rcases fs with _ | ⟨it, fs⟩
  · rw [show dumpsJChars (.arr (([] : FilterList).map filterItemJson)) ++ r =
      '[' :: ']' :: r from rfl]
    simp [parseItems]
  · obtain ⟨k, op, vals⟩ := it
    rw [show dumpsJChars (.arr (((k, op, vals) :: fs).map filterItemJson)) ++ r =
        '[' :: (dumpsJChars (filterItemJson (k, op, vals)) ++ (itemTail fs ++ ']' :: r)) from by
      rw [show dumpsJChars (.arr (((k, op, vals) :: fs).map filterItemJson)) =
        '[' :: dumpsArrChars (((k, op, vals) :: fs).map filterItemJson) ++ [']'] from rfl]
      rw [dumpsArrChars_items]
      simp]
    rw [show dumpsJChars (filterItemJson (k, op, vals)) ++ (itemTail fs ++ ']' :: r) =
        lbraceC :: (dumpsObjChars [(k, .obj [("operator", .str op),
          ("values", .arr (vals.map .str))])] ++ ([rbraceC] ++ (itemTail fs ++ ']' :: r))) from by
      rw [show dumpsJChars (filterItemJson (k, op, vals)) =
        lbraceC :: dumpsObjChars [(k, .obj [("operator", .str op),
          ("values", .arr (vals.map .str))])] ++ [rbraceC] from rfl]
      simp]
    simp only [parseItems]
    rw [if_pos trivial, if_neg (show ¬lbraceC = ']' by decide)]
    rw [show lbraceC :: (dumpsObjChars [(k, .obj [("operator", .str op),
        ("values", .arr (vals.map .str))])] ++ ([rbraceC] ++ (itemTail fs ++ ']' :: r))) =
        dumpsJChars (filterItemJson (k, op, vals)) ++ (itemTail fs ++ ']' :: r) from by
      rw [show dumpsJChars (filterItemJson (k, op, vals)) =
        lbraceC :: dumpsObjChars [(k, .obj [("operator", .str op),
          ("values", .arr (vals.map .str))])] ++ [rbraceC] from rfl]
      simp]
    rw [parseItem_inv]
    have hlen : fs.length < (itemTail fs ++ ']' :: r).length := by
      have := itemTail_length fs
      simp
      omega
    dsimp only
    rw [parseItemsRestF_itemTail fs r _ hlen]

/-- Decoding the one-shot serialization of a filter list recovers it. -/
theorem loadsFilters_dumpsFilters (fs : FilterList) :
    loadsFilters (dumpsFilters fs) = some fs := by
  unfold loadsFilters dumpsFilters dumpsJ
  rw [show (String.mk (dumpsJChars (.arr (fs.map filterItemJson)))).data =
    dumpsJChars (.arr (fs.map filterItemJson)) from rfl]
  rw [show dumpsJChars (.arr (fs.map filterItemJson)) =
    dumpsJChars (.arr (fs.map filterItemJson)) ++ [] from by simp]
  rw [parseItems_dumps fs []]


/-! ## Shared concrete fixtures for the claim checks -/

/-- A concrete module configuration. -/
def sampleCfg : GatewayConfig := { host := "pm.example.org", apiKey := "secret" }

/-- An empty process environment. -/
def sampleEnv : Env := fun _ => none

/-- An upstream that refuses the connection (never reached by the operations
that fail locally). -/
def sampleUpstream : Upstream := .transportError "connection refused"

/-- A one-row endpoint catalog. -/
def sampleRow : ApiRow :=
  { path := "/api/v3/work_packages", method := "GET", description := "List work packages",
    request_body := "None", responses := "[]" }

/-- A trivial stand-in for the json loader when its values are irrelevant. -/
def sampleLoads : String → JVal := fun _ => .null

/-! ## Key-presence helper lemmas -/

@[simp] theorem dictHasKey_addIfSome {α : Type} (d : Dict) (k : String) (v : Option α)
    (f : α → JVal) (q : String) :
    dictHasKey (addIfSome d k v f) q = (dictHasKey d q || (v.isSome && (k == q))) := by
  cases v <;> simp [addIfSome]

@[simp] theorem dictHasKey_addIfTruthyStr (d : Dict) (k : String) (v : Option String)
    (f : String → JVal) (q : String) :
    dictHasKey (addIfTruthyStr d k v f) q =
      (dictHasKey d q || (v.elim false (fun s => !(s == "")) && (k == q))) := by
  cases v with
  | none => simp [addIfTruthyStr]
  | some s =>
    by_cases hs : s = ""
    · simp [addIfTruthyStr, hs]
    · have hb : (s == "") = false := beq_eq_false_iff_ne.mpr hs
      simp [addIfTruthyStr, hs, hb]

@[simp] theorem dictHasKey_addIfTruthyInt (d : Dict) (k : String) (v : Option Int)
    (f : Int → JVal) (q : String) :
    dictHasKey (addIfTruthyInt d k v f) q =
      (dictHasKey d q || (v.elim false (fun x => !(x == 0)) && (k == q))) := by
  cases v with
  | none => simp [addIfTruthyInt]
  | some x =>
    by_cases hx : x = 0
    · simp [addIfTruthyInt, hx]
    · have hb : (x == 0) = false := beq_eq_false_iff_ne.mpr hx
      simp [addIfTruthyInt, hx, hb]

theorem mem_addIfSome_of_mem {α : Type} {x : String × JVal} (d : Dict) (k : String)
    (v : Option α) (f : α → JVal) (h : x ∈ d) : x ∈ addIfSome d k v f := by
  cases v with
  | none => exact h
  | some a =>
    simp [addIfSome]
    exact Or.inl h

theorem mem_addIfSome_self {α : Type} (d : Dict) (k : String) (a : α) (f : α → JVal) :
    (k, f a) ∈ addIfSome d k (some a) f := by
  simp [addIfSome]

theorem mem_addIfTruthyInt_of_mem {x : String × JVal} (d : Dict) (k : String)
    (v : Option Int) (f : Int → JVal) (h : x ∈ d) : x ∈ addIfTruthyInt d k v f := by
  cases v with
  | none => exact h
  | some a =>
    by_cases ha : a = 0
    · simpa [addIfTruthyInt, ha] using h
    · simp [addIfTruthyInt, ha]
      exact Or.inl h

theorem mem_addIfTruthyInt_self (d : Dict) (k : String) (a : Int) (ha : a ≠ 0)
    (f : Int → JVal) : (k, f a) ∈ addIfTruthyInt d k (some a) f := by
  simp [addIfTruthyInt, ha]

/-! ## Claim C1 -/

/-- Claim C1, as stated, is false on the code: create_project always sends an
`identifier` key (JSON null when the caller omits it), and create_work_package
guards the link fields by truthiness, so a caller-supplied explicit `0` for
`status_id` produces no link at all (not even a `_links` key). -/
theorem claim_C1_counterexample :
    dictHasKey (create_project_payload "Website" none none true none) "identifier" = true ∧
    dictHasKey (create_work_package_payload "Task" none none none (some 0) none
      none none none) "_links" = false := by
  constructor
  · rfl
  · rfl

/-- Claim C1, amended: the is-not-None presence discipline holds for
update_project and update_work_package (omitted fields never appear, explicit
`false` / `0` values appear with their value), while create_project always
emits the `identifier` key and create_work_package drops falsy values
(explicit `0` ids, empty-string descriptions). -/
theorem claim_C1_amended
    (nm idf ds se : Option String) (pb ac : Option Bool)
    (lv : Int) (subj ds3 : Option String) (pd ti pi2 si ai : Option Int)
    (sd dd et : Option String)
    (name2 : String) (desc2 ident2 se2 : Option String) (pub2 : Bool)
    (subject4 : String) (d4 : Option String) (t4 p4 s4 a4 : Option Int)
    (sd4 dd4 et4 : Option String) :
    (pb = none → dictHasKey (update_project_payload nm idf pb ac ds se) "public" = false) ∧
    (∀ b, pb = some b → ("public", JVal.bool b) ∈ update_project_payload nm idf pb ac ds se) ∧
    (ds = none → dictHasKey (update_project_payload nm idf pb ac ds se) "description" = false) ∧
    (pd = none → dictHasKey
      (update_work_package_payload lv subj ds3 pd ti pi2 si ai sd dd et) "percentageDone" = false) ∧
    (∀ k, pd = some k → ("percentageDone", JVal.num k) ∈
      update_work_package_payload lv subj ds3 pd ti pi2 si ai sd dd et) ∧
    dictHasKey (create_project_payload name2 desc2 ident2 pub2 se2) "identifier" = true ∧
    (t4 = some 0 → dictHasKey (create_work_package_links t4 p4 s4 a4) "type" = false) ∧
    (∀ i, i ≠ 0 → t4 = some i →
      ("type", JVal.obj [("href", .str ("/api/v3/types/" ++ toString i))]) ∈
        create_work_package_links t4 p4 s4 a4) ∧
    (d4 = some "" → dictHasKey
      (create_work_package_payload subject4 d4 t4 p4 s4 a4 sd4 dd4 et4) "description" = false) := by
  refine ⟨?_, ?_, ?_, ?_, ?_, ?_, ?_, ?_, ?_⟩
  · intro h
    subst h
    simp [update_project_payload]
  · intro b h
    subst h
    unfold update_project_payload
    exact mem_addIfSome_of_mem _ _ _ _ (mem_addIfSome_of_mem _ _ _ _
      (mem_addIfSome_of_mem _ _ _ _ (mem_addIfSome_self _ _ _ _)))
  · intro h
    subst h
    simp [update_project_payload]
  · intro h
    subst h
    simp only [update_work_package_payload]
    split_ifs <;> simp
  · intro k h
    subst h
    simp only [update_work_package_payload]
    have hmem : ("percentageDone", JVal.num k) ∈
        addIfSome (addIfSome (addIfSome (addIfSome (addIfSome (addIfSome
          [("lockVersion", JVal.num lv)] "subject" subj .str)
          "percentageDone" (some k) .num) "startDate" sd .str) "dueDate" dd .str)
          "estimatedTime" et .str) "description" ds3 (fun d => .obj [("raw", .str d)]) :=
      mem_addIfSome_of_mem _ _ _ _ (mem_addIfSome_of_mem _ _ _ _
        (mem_addIfSome_of_mem _ _ _ _ (mem_addIfSome_of_mem _ _ _ _
          (mem_addIfSome_self _ _ _ _))))
    split_ifs
    · exact hmem
    · exact List.mem_append_left _ hmem
  · simp [create_project_payload]
  · intro h
    subst h
    simp [create_work_package_links]
  · intro i hi h
    subst h
    unfold create_work_package_links
    exact mem_addIfTruthyInt_of_mem _ _ _ _ (mem_addIfTruthyInt_of_mem _ _ _ _
      (mem_addIfTruthyInt_of_mem _ _ _ _ (mem_addIfTruthyInt_self _ _ _ hi _)))
  · intro h
    subst h
    simp only [create_work_package_payload]
    split_ifs <;> simp

/-- Witness for the amended claim C1 at concrete inputs. -/
theorem claim_C1_witness :
    dictHasKey (update_project_payload none none none none none none) "public" = false ∧
    ("public", JVal.bool false) ∈
      update_project_payload none none (some false) none none none ∧
    ("percentageDone", JVal.num 0) ∈
      update_work_package_payload 7 none none (some 0) none none none none none none none :=
  ⟨(claim_C1_amended none none none none none none 7 none none none none none none none
      none none none "p" none none none true "s" none none none none none none none none).1 rfl,
   (claim_C1_amended none none none none (some false) none 7 none none none none none none none
      none none none "p" none none none true "s" none none none none none none none none).2.1
      false rfl,
   (claim_C1_amended none none none none none none 7 none none (some 0) none none none none
      none none none "p" none none none true "s" none none none none none none none
      none).2.2.2.2.1 0 rfl⟩

/-! ## Claim C2 -/

/-- The `str(e)` text every json-keyword call site produces. -/
def jsonKwErr : String := unexpectedKwargMsg "make_request" "json"

/-- Claim C2, as stated, fails for update_activity: its configuration step
reads the shadowed local `api_key` before assignment and raises
`UnboundLocalError` to the caller before the `try` block and before
`make_request` is ever invoked, so it does not return a local error string at
all (it still performs zero network calls). -/
theorem claim_C2_counterexample :
    (update_activity sampleEnv 7 "new text" sampleUpstream).result =
      .error (.unboundLocal "api_key") ∧
    (update_activity sampleEnv 7 "new text" sampleUpstream).sent = [] := by
  constructor
  · rfl
  · rfl

/-- Claim C2, amended: create_project, update_project, create_work_package,
update_work_package, comment_work_package and add_work_package_watcher each
pass the unexpected keyword `json` to make_request, whose binding raises
`TypeError` inside the `try`, so for every input they return the local error
string containing that message and issue zero network requests (update_project
returns its no-fields message instead when every optional field is omitted);
update_activity instead raises `UnboundLocalError` before reaching
make_request, also with zero network requests. -/
theorem claim_C2_amended (cfg : GatewayConfig) (env : Env) (u : Upstream)
    (nm : String) (ds idf : Option String) (pb : Bool) (se : Option String)
    (pid : Int) (nm3 ds3 idf3 : Option String) (pb3 ac3 : Option Bool) (se3 : Option String)
    (pid2 : Int) (subj : String) (d2 : Option String) (ti pi2 si ai : Option Int)
    (sd dd et : Option String) (ntf : Bool)
    (wid lv : Int) (s5 d5 : Option String) (pd5 t5 p5 st5 a5 : Option Int)
    (sd5 dd5 et5 : Option String) (ntf5 : Bool)
    (cwid : Int) (ctext : String) (cntf : Bool) (awid auid : Int)
    (aid : Int) (atext : String) :
    ((create_project cfg nm ds idf pb se u).result =
      .ok ("Error creating project: " ++ jsonKwErr) ∧
     (create_project cfg nm ds idf pb se u).sent = []) ∧
    ((update_project cfg pid nm3 ds3 idf3 pb3 ac3 se3 u).sent = [] ∧
     (update_project_payload nm3 idf3 pb3 ac3 ds3 se3 ≠ [] →
       (update_project cfg pid nm3 ds3 idf3 pb3 ac3 se3 u).result =
         .ok ("Error updating project " ++ toString pid ++ ": " ++ jsonKwErr)) ∧
     (update_project_payload nm3 idf3 pb3 ac3 ds3 se3 = [] →
       (update_project cfg pid nm3 ds3 idf3 pb3 ac3 se3 u).result =
         .ok "No update fields provided. Please specify at least one field to change.")) ∧
    ((create_work_package cfg pid2 subj d2 ti pi2 si ai sd dd et ntf u).result =
      .ok ("Error creating work package in project " ++ toString pid2 ++ ": " ++ jsonKwErr) ∧
     (create_work_package cfg pid2 subj d2 ti pi2 si ai sd dd et ntf u).sent = []) ∧
    ((update_work_package cfg wid lv s5 d5 pd5 t5 p5 st5 a5 sd5 dd5 et5 ntf5 u).result =
      .ok ("Error updating work package " ++ toString wid ++ ": " ++ jsonKwErr) ∧
     (update_work_package cfg wid lv s5 d5 pd5 t5 p5 st5 a5 sd5 dd5 et5 ntf5 u).sent = []) ∧
    ((comment_work_package cfg cwid ctext cntf u).result =
      .ok ("Error commenting on work package " ++ toString cwid ++ ": " ++ jsonKwErr) ∧
     (comment_work_package cfg cwid ctext cntf u).sent = []) ∧
    ((add_work_package_watcher cfg awid auid u).result =
      .ok ("Error adding watcher to work package " ++ toString awid ++ ": " ++ jsonKwErr) ∧
     (add_work_package_watcher cfg awid auid u).sent = []) ∧
    ((update_activity env aid atext u).result = .error (.unboundLocal "api_key") ∧
     (update_activity env aid atext u).sent = []) := by
  refine ⟨⟨rfl, rfl⟩, ⟨?_, ?_, ?_⟩, ⟨rfl, rfl⟩, ⟨rfl, rfl⟩, ⟨rfl, rfl⟩, ⟨rfl, rfl⟩, rfl, rfl⟩
  · simp only [update_project]
    split_ifs <;> rfl
  · intro h
    simp only [update_project]
    rw [if_neg (by simpa using h)]
    rfl
  · intro h
    simp only [update_project]
    rw [if_pos (by simpa using h)]

/-- Witness for the amended claim C2 at concrete inputs. -/
theorem claim_C2_witness :
    (update_project sampleCfg 3 (some "N") none none none none none sampleUpstream).result =
      .ok ("Error updating project 3: " ++ jsonKwErr) ∧
    (update_project sampleCfg 3 none none none none none none sampleUpstream).result =
      .ok "No update fields provided. Please specify at least one field to change." :=
  ⟨(claim_C2_amended sampleCfg sampleEnv sampleUpstream "n" none none true none
      3 (some "N") none none none none none 1 "s" none none none none none none none none
      true 1 1 none none none none none none none none none none true 1 "c" true 1 2
      1 "t").2.1.2.1 (by simp [update_project_payload]),
   (claim_C2_amended sampleCfg sampleEnv sampleUpstream "n" none none true none
      3 none none none none none none 1 "s" none none none none none none none none
      true 1 1 none none none none none none none none none none true 1 "c" true 1 2
      1 "t").2.1.2.2 rfl⟩

/-! ## Claim C3 -/

/-- Claim C3, as stated, is false on the code: a 2xx response whose body is
empty (such as a 204) makes `response.json()` raise, and the generic `except`
turns that into the `Request failed` error record, not a no-content success. -/
theorem claim_C3_counterexample :
    (make_request "https://pm.example.org/api/v3/work_packages/9/watchers/2" "DELETE"
      none none none
      (.response 204 "" (.error "Expecting value: line 1 column 1 (char 0)"))).2 =
    requestFailedRecord "Expecting value: line 1 column 1 (char 0)" := rfl

/-- Claim C3, amended: on a 2xx response, make_request returns the parsed
JSON body when the body parses, and the `Request failed` error record (from
the raised decode error) when it does not - in particular for every 204
empty-body response. -/
theorem claim_C3_amended (url method : String) (headers data params : Option Dict)
    (status : Nat) (text : String) (jb : Except String JVal)
    (hm : pyLower method ∈ clientVerbs) (h2 : 200 ≤ status) (h3 : status < 300) :
    (∀ j, jb = .ok j →
      (make_request url method headers data params (.response status text jb)).2 = j) ∧
    (∀ m, jb = .error m →
      (make_request url method headers data params (.response status text jb)).2 =
        requestFailedRecord m) := by
  constructor
  · intro j hj
    subst hj
    simp only [make_request]
    rw [if_pos hm, if_pos ⟨h2, h3⟩]
  · intro m hm2
    subst hm2
    simp only [make_request]
    rw [if_pos hm, if_pos ⟨h2, h3⟩]

/-- Witness for the amended claim C3 at concrete inputs. -/
theorem claim_C3_witness :
    (make_request "https://pm.example.org/x" "GET" none none none
      (.response 200 "7" (.ok (.num 7)))).2 = .num 7 ∧
    (make_request "https://pm.example.org/x" "GET" none none none
      (.response 204 "" (.error "Expecting value"))).2 =
      requestFailedRecord "Expecting value" :=
  ⟨(claim_C3_amended "https://pm.example.org/x" "GET" none none none 200 "7" (.ok (.num 7))
      (by decide) (by omega) (by omega)).1 (.num 7) rfl,
   (claim_C3_amended "https://pm.example.org/x" "GET" none none none 204 "" (.error "Expecting value")
      (by decide) (by omega) (by omega)).2 "Expecting value" rfl⟩

/-! ## Claim C5 -/

/-- Claim C5: for GET/DELETE/HEAD/OPTIONS (case-insensitively) the built
`request_args` has no `json` key and truthy data goes into `params`; for every
other method `json` is set to the data and truthy separately-supplied params
are still attached; and for every client verb the request handed to the
transport carries exactly those fields. -/
theorem claim_C5_method_routing (method : String) (headers : Option Dict)
    (data params : Option Dict) :
    (pyLower method ∈ noBodyMethods →
      (buildRequestArgs method headers data params).jsonBody = none ∧
      (optDictTruthy data = true →
        (buildRequestArgs method headers data params).params = some data)) ∧
    (pyLower method ∉ noBodyMethods →
      (buildRequestArgs method headers data params).jsonBody = some data ∧
      (optDictTruthy params = true →
        (buildRequestArgs method headers data params).params = some params)) ∧
    (∀ url u, pyLower method ∈ clientVerbs →
      ∃ req, (make_request url method headers data params u).1 = some req ∧
        req.jsonBody = (buildRequestArgs method headers data params).jsonBody ∧
        req.params = (buildRequestArgs method headers data params).params) := by
  refine ⟨?_, ?_, ?_⟩
  · intro hm
    simp only [buildRequestArgs]
    rw [if_pos hm]
    exact ⟨rfl, fun ht => by simp [pyOr, ht]⟩
  · intro hm
    simp only [buildRequestArgs]
    rw [if_neg hm]
    exact ⟨rfl, fun ht => by simp [ht]⟩
  · intro url u hm
    simp only [make_request]
    rw [if_pos hm]
    cases u with
    | response status text jb =>
      dsimp only
      split_ifs
      · cases jb with
        | ok j => exact ⟨_, rfl, rfl, rfl⟩
        | error m => exact ⟨_, rfl, rfl, rfl⟩
      · exact ⟨_, rfl, rfl, rfl⟩
    | transportError m =>
      dsimp only
      exact ⟨_, rfl, rfl, rfl⟩

/-- Witness for claim C5 at concrete inputs. -/
theorem claim_C5_witness :
    (buildRequestArgs "GET" none (some [("filters", JVal.str "x")]) none).jsonBody = none ∧
    (buildRequestArgs "GET" none (some [("filters", JVal.str "x")]) none).params =
      some (some [("filters", JVal.str "x")]) ∧
    (buildRequestArgs "POST" none (some [("a", JVal.num 1)])
      (some [("notify", JVal.str "true")])).jsonBody = some (some [("a", JVal.num 1)]) ∧
    (buildRequestArgs "POST" none (some [("a", JVal.num 1)])
      (some [("notify", JVal.str "true")])).params = some (some [("notify", JVal.str "true")]) :=
  ⟨((claim_C5_method_routing "GET" none (some [("filters", JVal.str "x")]) none).1
      (by decide)).1,
   ((claim_C5_method_routing "GET" none (some [("filters", JVal.str "x")]) none).1
      (by decide)).2 (by decide),
   ((claim_C5_method_routing "POST" none (some [("a", JVal.num 1)])
      (some [("notify", JVal.str "true")])).2.1 (by decide)).1,
   ((claim_C5_method_routing "POST" none (some [("a", JVal.num 1)])
      (some [("notify", JVal.str "true")])).2.1 (by decide)).2 (by decide)⟩

/-! ## Claim C6 -/

/-- Claim C6: every non-2xx response maps to the `HTTP error` record carrying
the numeric status and the raw text, every transport failure maps to the
`Request failed` record carrying the message and no status, and the two
records are never equal. -/
theorem claim_C6_error_records (url method : String) (headers data params : Option Dict)
    (status : Nat) (text msg : String) (jb : Except String JVal)
    (hm : pyLower method ∈ clientVerbs) :
    (¬(200 ≤ status ∧ status < 300) →
      (make_request url method headers data params (.response status text jb)).2 =
        httpErrorRecord status text) ∧
    ((make_request url method headers data params (.transportError msg)).2 =
      requestFailedRecord msg) ∧
    (∀ (st : Nat) (tx m : String), httpErrorRecord st tx ≠ requestFailedRecord m) := by
  refine ⟨?_, ?_, ?_⟩
  · intro hs
    simp only [make_request]
    rw [if_pos hm, if_neg hs]
  · simp only [make_request]
    rw [if_pos hm]
  · intro st tx m h
    simp [httpErrorRecord, requestFailedRecord] at h

/-- Witness for claim C6 at concrete inputs. -/
theorem claim_C6_witness :
    (make_request "https://pm.example.org/x" "GET" none none none
      (.response 404 "Not found" (.error "x"))).2 = httpErrorRecord 404 "Not found" ∧
    (make_request "https://pm.example.org/x" "GET" none none none
      (.transportError "connection refused")).2 = requestFailedRecord "connection refused" ∧
    httpErrorRecord 404 "Not found" ≠ requestFailedRecord "connection refused" :=
  ⟨(claim_C6_error_records "https://pm.example.org/x" "GET" none none none 404 "Not found"
      "connection refused" (.error "x") (by decide)).1 (by omega),
   (claim_C6_error_records "https://pm.example.org/x" "GET" none none none 404 "Not found"
      "connection refused" (.error "x") (by decide)).2.1,
   (claim_C6_error_records "https://pm.example.org/x" "GET" none none none 404 "Not found"
      "connection refused" (.error "x") (by decide)).2.2 404 "Not found" "connection refused"⟩

/-! ## Claim C4 -/

/-- Claim C4 is right about the intended contract but the code breaks it:
run_api and view_activity shadow `api_key` with a local assignment whose
right-hand side reads the still-unbound local, so both raise
`UnboundLocalError` to their caller on every input, before any network
request; and list_projects hands back make_request's dict unserialized
instead of a JSON string. -/
theorem claim_C4_code_eval :
    (run_api "/projects" "GET" sampleUpstream).result = .error (.unboundLocal "api_key") ∧
    (run_api "/projects" "GET" sampleUpstream).sent = [] ∧
    (view_activity sampleEnv 3 sampleUpstream).result = .error (.unboundLocal "api_key") ∧
    (view_activity sampleEnv 3 sampleUpstream).sent = [] ∧
    (list_projects sampleCfg sampleUpstream).result =
      .ok (requestFailedRecord "connection refused") := by
  exact ⟨rfl, rfl, rfl, rfl, rfl⟩

/-! ## Claim C7 -/

/-- Claim C7 is right about the intent but the code breaks its second half:
lock_version is indeed a required parameter of both operations, so a call
omitting it fails at binding with zero network calls, and update_work_package
writes the supplied token verbatim as the `lockVersion` field of its payload;
but that payload is never outgoing (the make_request call dies on the `json`
keyword), and execute_custom_action raises `UnboundLocalError` in its
configuration step before any payload is built, even with the token
supplied. -/
theorem claim_C7_code_eval :
    (call_update_work_package sampleCfg (some 10) none none none none none none none none
      none none none true sampleUpstream).result =
      .error (.typeError "update_work_package() missing required argument lock_version") ∧
    (call_update_work_package sampleCfg (some 10) none none none none none none none none
      none none none true sampleUpstream).sent = [] ∧
    dictGet (update_work_package_payload 42 none none none none none none none none none none)
      "lockVersion" = some (.num 42) ∧
    (update_work_package sampleCfg 5 42 none none none none none none none none none none
      true sampleUpstream).result =
      .ok ("Error updating work package 5: " ++ jsonKwErr) ∧
    (update_work_package sampleCfg 5 42 none none none none none none none none none none
      true sampleUpstream).sent = [] ∧
    (call_execute_custom_action sampleEnv (some 1) (some 2) none sampleUpstream).result =
      .error (.typeError "execute_custom_action() missing required argument") ∧
    (call_execute_custom_action sampleEnv (some 1) (some 2) none sampleUpstream).sent = [] ∧
    (execute_custom_action sampleEnv 1 2 3 sampleUpstream).result =
      .error (.unboundLocal "api_key") ∧
    (execute_custom_action sampleEnv 1 2 3 sampleUpstream).sent = [] := by
  exact ⟨rfl, rfl, rfl, rfl, rfl, rfl, rfl, rfl, rfl⟩

/-! ## Claim C8 -/

/-- Claim C8, as stated, is false on the code: SQLite LIKE matches ASCII
case-insensitively, so the query `WORK` matches the stored path
`/api/v3/work_packages` even though it is not a case-sensitive substring of
it; and query_api answers a zero-match query with the
`No matching endpoints found` error object, not an empty list. -/
theorem claim_C8_counterexample :
    search_endpoint sampleLoads [sampleRow] "WORK" = [rowEntry sampleLoads sampleRow] ∧
    specSearchCS [sampleRow] "WORK" = [] ∧
    query_api sampleLoads [sampleRow] "zzz" = noMatchError := by
  exact ⟨rfl, rfl, rfl⟩

/-- Claim C8, amended: for a wildcard-free query, search_endpoint returns
exactly the rows whose path contains the query as an ASCII case-insensitive
(not case-sensitive) unanchored substring, each row deserialized with the
stored text `None` becoming a null request body; and on zero matches
search_endpoint yields `[]` while query_api yields the error object. -/
theorem claim_C8_amended (loads : String → JVal) (db : List ApiRow) (q : String)
    (hq : ∀ c ∈ q.data, c ≠ '%' ∧ c ≠ '_') :
    search_endpoint loads db q =
      (db.filter (fun r => containsCI q r.path)).map (rowEntry loads) ∧
    (∀ r, dictGet (rowEntry loads r) "request_body" =
      some (if r.request_body = "None" then JVal.null else loads r.request_body)) ∧
    (search_endpoint loads db q = [] → query_api loads db q = noMatchError) := by
  refine ⟨?_, ?_, ?_⟩
  · unfold search_endpoint
    have hfun : (fun r : ApiRow => sqliteLikeContains q r.path) =
        (fun r : ApiRow => containsCI q r.path) :=
      funext fun r => sqliteLikeContains_eq_containsCI q r.path hq
    rw [hfun]
  · intro r
    by_cases hrb : r.request_body = "None" <;> simp [rowEntry, dictGet, hrb]
  · intro h
    simp [query_api, h]

/-- Witness for the amended claim C8 at concrete inputs. -/
theorem claim_C8_witness :
    search_endpoint sampleLoads [sampleRow] "WORK" =
      (([sampleRow].filter (fun r => containsCI "WORK" r.path)).map (rowEntry sampleLoads)) ∧
    dictGet (rowEntry sampleLoads sampleRow) "request_body" =
      some (if sampleRow.request_body = "None" then JVal.null
            else sampleLoads sampleRow.request_body) ∧
    query_api sampleLoads [sampleRow] "zzz" = noMatchError :=
  ⟨(claim_C8_amended sampleLoads [sampleRow] "WORK" (by decide)).1,
   (claim_C8_amended sampleLoads [sampleRow] "WORK" (by decide)).2.1 sampleRow,
   (claim_C8_amended sampleLoads [sampleRow] "zzz" (by decide)).2.2 rfl⟩

/-! ## Claim C9 -/

/-- Claim C9: a structured filter list is serialized exactly once to its
JSON-string query-parameter form — `get_project_work_packages` puts the one
`json.dumps` of the structure under the `filters` key — and parsing that
string back with `json.loads` yields the original structure. -/
theorem claim_C9 (fs : FilterList) :
    loadsFilters (dumpsFilters fs) = some fs ∧
    dictGet (get_project_work_packages_params none none
        (some (.arr (fs.map filterItemJson))) none none none none) "filters" =
      some (.str (dumpsFilters fs)) :=
  ⟨loadsFilters_dumpsFilters fs, rfl⟩

/-! ## Claim C10 -/

/-- Claim C10: `list_work_packages` always issues exactly one GET carrying the
fixed parameters offset 1, pageSize 20, sortBy `[["id","asc"]]`, showSums
`"false"` and timestamps `"PT0S"`, and its filters parameter is the JSON
serialization of: the default open-status filter alone when the caller omits
`filters`, the default filter prepended to the caller's list when that list is
non-empty, and the empty list (no filters) when the caller passes `[]`. -/
theorem claim_C10 (cfg : GatewayConfig) (u : Upstream) (f : JVal) (fs : List JVal) :
    (list_work_packages cfg none u).sent =
      [{ url := "https://" ++ cfg.host ++ "/api/v3/work_packages",
         methodLower := "get",
         headers := [("Authorization", .str ("Basic " ++ cfg.apiKey)),
                     ("Content-Type", .str "application/json"),
                     ("User-Agent", .str USER_AGENT)],
         params := some (some
           [("offset", .num 1), ("pageSize", .num 20),
            ("filters", .str (dumpsJ (.arr [default_status_filter]))),
            ("sortBy", .str (dumpsJ (.arr [.arr [.str "id", .str "asc"]]))),
            ("showSums", .str "false"), ("timestamps", .str "PT0S")]),
         jsonBody := none }] ∧
    (list_work_packages cfg (some []) u).sent =
      [{ url := "https://" ++ cfg.host ++ "/api/v3/work_packages",
         methodLower := "get",
         headers := [("Authorization", .str ("Basic " ++ cfg.apiKey)),
                     ("Content-Type", .str "application/json"),
                     ("User-Agent", .str USER_AGENT)],
         params := some (some
           [("offset", .num 1), ("pageSize", .num 20),
            ("filters", .str (dumpsJ (.arr []))),
            ("sortBy", .str (dumpsJ (.arr [.arr [.str "id", .str "asc"]]))),
            ("showSums", .str "false"), ("timestamps", .str "PT0S")]),
         jsonBody := none }] ∧
    (list_work_packages cfg (some (f :: fs)) u).sent =
      [{ url := "https://" ++ cfg.host ++ "/api/v3/work_packages",
         methodLower := "get",
         headers := [("Authorization", .str ("Basic " ++ cfg.apiKey)),
                     ("Content-Type", .str "application/json"),
                     ("User-Agent", .str USER_AGENT)],
         params := some (some
           [("offset", .num 1), ("pageSize", .num 20),
            ("filters", .str (dumpsJ (.arr (default_status_filter :: f :: fs)))),
            ("sortBy", .str (dumpsJ (.arr [.arr [.str "id", .str "asc"]]))),
            ("showSums", .str "false"), ("timestamps", .str "PT0S")]),
         jsonBody := none }] := by
  refine ⟨?_, ?_, ?_⟩ <;>
  · simp only [list_work_packages, callMakeRequest, make_request, buildRequestArgs]
    rw [if_pos (show pyLower "GET" ∈ noBodyMethods from by decide),
        if_pos (show pyLower "GET" ∈ clientVerbs from by decide)]
    cases u with
    | response st tx jb =>
      dsimp only
      split_ifs
      · cases jb with
        | ok j => rfl
        | error m => rfl
      · rfl
    | transportError m => rfl

end McpAgent
